import Mathlib

/-! # Verification of the mtv-api-tests TUI discovery/cache engine

Shallow embedding of `tools/dev/tui/models.go`: the concurrent cluster
discovery coordinator (`loadClustersCmd`, `extractClusterNameFromError`),
the session caches (`clusterInfo` / `clusterPasswords` maps), and the
Bubble Tea state machine (`AppModel.Update` and its helpers).

Modelling conventions:
* Go strings are Lean `String`s; the Go standard-library string helpers
  used by the code (`strings.Split`, `strings.Contains`,
  `strings.TrimSpace`, `strings.HasPrefix`, `strings.ToLower`) are
  re-implemented below over `String.data` so that they are executable by
  the kernel (core `String` primitives do not kernel-reduce).
  `strings.ToLower` and `strings.TrimSpace` are modelled on the
  ASCII/Latin-1 range, which covers every string this program handles.
* Goroutine scheduling is modelled by an explicit `arrivals` list: the
  candidate names whose probe result is received from the shared channel
  before the 60-second deadline timer fires, in arrival order.  A probe's
  behaviour (success, login failure, info failure, or a recovered panic)
  is an explicit `ProbeOutcome` per name.
* Go maps are association lists with Go-map insert/delete/lookup
  semantics.
* `sort.Slice` (an unstable sort whose contract is: the output is a
  permutation of the input that is sorted w.r.t. the comparator) is
  modelled by `List.insertionSort` over the same comparator.
-/

/-! ## Go string primitives -/

/-- The `strings.Split` worker over the character list.  `fuel` is the length
of the remaining input, making the recursion structural; `goSplit` always
supplies enough fuel. -/
def goSplitAux (sep : List Char) : Nat → List Char → List Char → List (List Char)
  | _, [], acc => [acc.reverse]
  | 0, l, acc => [acc.reverse ++ l]
  | fuel+1, c :: rest, acc =>
    if sep.isPrefixOf (c :: rest) then
      acc.reverse :: goSplitAux sep fuel (List.drop (sep.length - 1) rest) []
    else goSplitAux sep fuel rest (c :: acc)

/-- Model of `strings.Split(s, sep)` for non-empty `sep` (the only way the program
calls it): splits `s` around each non-overlapping instance of `sep`. -/
def goSplit (s sep : String) : List String :=
  (goSplitAux sep.data s.data.length s.data []).map (fun l => String.mk l)

/-- Model of `strings.Contains(s, sub)`. -/
def goContainsAux (sub : List Char) : List Char → Bool
  | [] => sub.isPrefixOf []
  | c :: rest => sub.isPrefixOf (c :: rest) || goContainsAux sub rest

def goContains (s sub : String) : Bool := goContainsAux sub.data s.data

/-- Model of `unicode.IsSpace` restricted to Latin-1 (the program only ever trims
ASCII error strings). -/
def goIsSpace (c : Char) : Bool :=
  c = ' ' || c = '\t' || c = '\n' || c.val = 11 || c.val = 12 || c = '\r' ||
    c.val = 0x85 || c.val = 0xA0

/-- Model of `strings.TrimSpace`. -/
def goTrimSpace (s : String) : String :=
  String.mk (((s.data.dropWhile goIsSpace).reverse.dropWhile goIsSpace).reverse)

/-- Model of `strings.HasPrefix(s, pre)`. -/
def goHasPrefix (s pre : String) : Bool := pre.data.isPrefixOf s.data

/-- Model of `strings.ToLower` restricted to ASCII. -/
def goToLowerChar (c : Char) : Char :=
  if 'A' ≤ c ∧ c ≤ 'Z' then Char.ofNat (c.toNat + 32) else c

def goToLower (s : String) : String := String.mk (s.data.map goToLowerChar)

/-- The Go `<` on strings: byte-wise lexicographic order, here modelled
character-wise (agrees with byte order on the ASCII cluster names the
program compares). -/
def goLtb : List Char → List Char → Bool
  | [], [] => false
  | [], _ :: _ => true
  | _ :: _, [] => false
  | a :: as, b :: bs => if a < b then true else if b < a then false else goLtb as bs

/-- The relation given by `¬ (t < s)`, the non-strict order induced by Go string `<`. -/
def goStrLe (s t : String) : Bool := !(goLtb t.data s.data)

/-! ## Data model (`ClusterInfo`, `ClusterItem`) -/

/-- Model of `tui.ClusterInfo`. -/
structure ClusterInfo where
  Name : String
  OCPVersion : String
  MTVVersion : String
  CNVVersion : String
  IIB : String
  ConsoleURL : String
deriving DecidableEq

/-- Model of `tui.ClusterItem`. -/
structure ClusterItem where
  name : String
  status : String
  ocpVersion : String
  mtvVersion : String
  cnvVersion : String
  accessible : Bool
deriving DecidableEq

/-- The comparator of the `sort.Slice` call in `loadClustersCmd`
(`clusters[i].name < clusters[j].name`), in its non-strict form. -/
def clusterLe (a b : ClusterItem) : Prop := goStrLe a.name b.name = true

instance : DecidableRel clusterLe := fun a b => by unfold clusterLe; infer_instance

/-- The `sort.Slice(clusters, ...)` call: a permutation of the input
sorted by cluster name. -/
def sortClusters (l : List ClusterItem) : List ClusterItem :=
  List.insertionSort clusterLe l

/-! ## Go map model (association lists with Go-map semantics) -/

def mapLookup {α : Type} (m : List (String × α)) (k : String) : Option α :=
  match m.find? (fun p => decide (p.1 = k)) with
  | some p => some p.2
  | none => none

def mapInsert {α : Type} (m : List (String × α)) (k : String) (v : α) :
    List (String × α) :=
  if m.any (fun p => decide (p.1 = k)) then
    m.map (fun p => if p.1 = k then (k, v) else p)
  else m ++ [(k, v)]

def mapDelete {α : Type} (m : List (String × α)) (k : String) : List (String × α) :=
  m.filter (fun p => !(decide (p.1 = k)))

/-! ## `extractClusterNameFromError` -/

/-- Model of `tui.extractClusterNameFromError`: recovers a cluster name from the
error strings `"login failed for NAME: ..."` and
`"cluster info failed for NAME: ..."`; returns `""` otherwise. -/
def extractClusterNameFromError (errorMsg : String) : String :=
  if goContains errorMsg "login failed for " = true ∧
      (goSplit errorMsg "login failed for ").length > 1 then
    goTrimSpace
      ((goSplit ((goSplit errorMsg "login failed for ").getD 1 "") ":").getD 0 "")
  else if goContains errorMsg "cluster info failed for " = true ∧
      (goSplit errorMsg "cluster info failed for ").length > 1 then
    goTrimSpace
      ((goSplit ((goSplit errorMsg "cluster info failed for ").getD 1 "") ":").getD 0 "")
  else ""

/-! ## Discovery coordinator (`loadClustersCmd`) -/

/-- One directory entry returned by `ReadDir(CLUSTERS_PATH)`. -/
structure DirEntry where
  name : String
  isDir : Bool
deriving DecidableEq

/-- Candidate filtering in `loadClustersCmd`: directories whose name has
prefix `qemtv-` or `qemtvd-`. -/
def candidateNames (entries : List DirEntry) : List String :=
  (entries.filter (fun e =>
    e.isDir && ( goHasPrefix e.name "qemtv-" || goHasPrefix e.name "qemtvd-"))).map
    (fun e => e.name)

/-- Behaviour of one probe goroutine's external calls: success, a login
failure, a cluster-info failure, or a panic somewhere in the goroutine
body (caught by the deferred `recover`). -/
inductive ProbeOutcome where
  | ok (info : ClusterInfo)
  | loginErr (e : String)
  | infoErr (e : String)
  | panicked (r : String)
deriving DecidableEq

/-- The Go `clusterResult` as it is sent on the result channel. -/
inductive ClusterResultE where
  | ok (info : ClusterInfo)
  | err (msg : String)
deriving DecidableEq

/-- The body of the per-cluster goroutine in `loadClustersCmd`: exactly one
result is sent, with the `fmt.Errorf` message formats of the source. -/
def runProbe (name : String) : ProbeOutcome → ClusterResultE
  | .panicked r => .err ("panic in " ++ name ++ ": " ++ r)
  | .loginErr e => .err ("login failed for " ++ name ++ ": " ++ e)
  | .infoErr e => .err ("cluster info failed for " ++ name ++ ": " ++ e)
  | .ok info => .ok info

/-- The `ClusterItem` built for a successful probe result. -/
def onlineItem (info : ClusterInfo) : ClusterItem :=
  { name := info.Name, accessible := true, ocpVersion := info.OCPVersion,
    mtvVersion := info.MTVVersion, cnvVersion := info.CNVVersion,
    status := "Online" }

/-- The `ClusterItem` built for a failed probe result. -/
def offlineItem (nm : String) : ClusterItem :=
  { name := nm, accessible := false, status := "Offline",
    ocpVersion := "", mtvVersion := "", cnvVersion := "" }

/-- The `ClusterItem` synthesized in the timeout branch. -/
def timeoutItem (nm : String) : ClusterItem :=
  { name := nm, accessible := false, status := "Timeout",
    ocpVersion := "", mtvVersion := "", cnvVersion := "" }

/-- Mutable state of the collection loop in `loadClustersCmd`. -/
structure CollectState where
  collected : Nat
  clusters : List ClusterItem
  infoMap : List (String × ClusterInfo)
deriving DecidableEq

/-- Handling of one received `clusterResult` (the `case result := <-resultChan`
branch).  A failed result whose cluster name cannot be extracted is skipped
without incrementing `collected` (the `continue`). -/
def processResult (st : CollectState) : ClusterResultE → CollectState
  | .ok info =>
      { collected := st.collected + 1,
        clusters := st.clusters ++ [onlineItem info],
        infoMap := mapInsert st.infoMap info.Name info }
  | .err msg =>
      let clusterName := extractClusterNameFromError msg
      if clusterName = "" then st
      else { st with collected := st.collected + 1,
                     clusters := st.clusters ++ [offlineItem clusterName] }

/-- The collection loop `for collected < len(clusterNames)`, consuming the
results that arrive before the deadline timer fires. -/
def collectLoop (total : Nat) (st : CollectState) : List ClusterResultE → CollectState
  | [] => st
  | res :: rest =>
      if st.collected < total then collectLoop total (processResult st res) rest
      else st

/-- The `case <-timeout` branch: every candidate name not already present
among the collected clusters is appended as a Timeout record. -/
def synthesizeTimeouts (clusterNames : List String) (clusters : List ClusterItem) :
    List ClusterItem :=
  clusters ++
    (clusterNames.filter
      (fun nm => !(clusters.any (fun c => decide (c.name = nm))))).map timeoutItem

/-- The payload of `ClustersLoadedMsg`. -/
structure ClustersLoadedMsgData where
  clusters : List ClusterItem
  clusterInfo : List (String × ClusterInfo)
deriving DecidableEq

/-- Model of `tui.loadClustersCmd`.  `readDirResult` is the outcome of
`ReadDir(CLUSTERS_PATH)` (`none` = error), `outcome` the behaviour of each
cluster's probe, and `arrivals` the candidate names whose single probe
result is received from the channel before the deadline timer fires, in
arrival order. -/
def loadClustersCmdRun (readDirResult : Option (List DirEntry))
    (outcome : String → ProbeOutcome) (arrivals : List String) :
    ClustersLoadedMsgData :=
  match readDirResult with
  | none => ⟨[], []⟩
  | some entries =>
    let clusterNames := candidateNames entries
    if clusterNames.length = 0 then ⟨[], []⟩
    else
      let results := arrivals.map (fun nm => runProbe nm (outcome nm))
      let st := collectLoop clusterNames.length ⟨0, [], []⟩ results
      let finalClusters :=
        if st.collected < clusterNames.length then
          synthesizeTimeouts clusterNames st.clusters
        else st.clusters
      ⟨sortClusters finalClusters, st.infoMap⟩

/-! ## Analysis of the discovery coordinator -/

/-- Whether a probe outcome is one whose result increments `collected`
(everything except a recovered panic, whose error message defeats
`extractClusterNameFromError`). -/
def nonPanic : ProbeOutcome → Bool
  | .panicked _ => false
  | _ => true

/-- The record the collection loop appends for one arriving result
(`none` for a panic result, which the loop skips). -/
def arrivalItem (nm : String) : ProbeOutcome → Option ClusterItem
  | .ok info => some (onlineItem info)
  | .loginErr _ => some (offlineItem nm)
  | .infoErr _ => some (offlineItem nm)
  | .panicked _ => none

/-- A candidate name is *attributable* when the error-message round trip
of its probe recovers exactly the name (and a panic message extracts to
nothing).  This is the well-behavedness condition on names that the
string surgery in `extractClusterNameFromError` silently assumes; any
ordinary `qemtv-*` name (no colon, no whitespace padding, not containing
the marker phrases) satisfies it. -/
def extractsOwnName (nm : String) : ProbeOutcome → Bool
  | .ok info => decide (info.Name = nm)
  | .loginErr e =>
      decide (extractClusterNameFromError ("login failed for " ++ nm ++ ": " ++ e) = nm)
  | .infoErr e =>
      decide (extractClusterNameFromError ("cluster info failed for " ++ nm ++ ": " ++ e) = nm)
  | .panicked r =>
      decide (extractClusterNameFromError ("panic in " ++ nm ++ ": " ++ r) = "")

/-- The items appended by a clean run of the collection loop. -/
def collectedItems (outcome : String → ProbeOutcome) (arrivals : List String) :
    List ClusterItem :=
  arrivals.filterMap (fun nm => arrivalItem nm (outcome nm))

def cex1Entries : List DirEntry := [⟨"qemtv-a:b", true⟩, ⟨"qemtv-c", true⟩]

def cex1Outcome : String → ProbeOutcome := fun _ => ProbeOutcome.loginErr "x"

def wit1Entries : List DirEntry :=
  [⟨"qemtv-b", true⟩, ⟨"qemtv-a", true⟩, ⟨"qemtvd-c", true⟩,
   ⟨"other", true⟩, ⟨"qemtv-file", false⟩]

def wit1Info : ClusterInfo :=
  ⟨"qemtv-a", "4.17.3", "2.7.0", "4.16.1", "iib:1", "https://console.example"⟩

def wit1Outcome : String → ProbeOutcome := fun nm =>
  if nm = "qemtv-a" then ProbeOutcome.ok wit1Info
  else if nm = "qemtv-b" then ProbeOutcome.loginErr "connection refused"
  else ProbeOutcome.panicked "oops"

def cex2Entries : List DirEntry := [⟨"qemtv-a", true⟩, ⟨"qemtv-b", true⟩]

def cex2Outcome : String → ProbeOutcome := fun nm =>
  if nm = "qemtv-a" then
    ProbeOutcome.ok ⟨"qemtv-a", "4.17.3", "2.7.0", "4.16.1", "iib:1", "https://console.example"⟩
  else ProbeOutcome.panicked "nil pointer dereference"

def wit3Entries : List DirEntry :=
  [⟨"qemtv-a", true⟩, ⟨"qemtv-b", true⟩, ⟨"qemtv-c", true⟩]

def wit3Outcome : String → ProbeOutcome := fun nm =>
  if nm = "qemtv-a" then
    ProbeOutcome.ok ⟨"qemtv-a", "4.17.3", "2.7.0", "4.16.1", "iib:1", "https://console.example"⟩
  else if nm = "qemtv-b" then ProbeOutcome.panicked "index out of range"
  else ProbeOutcome.infoErr "catalog lookup failed"

/-! ## View state machine (`AppModel` and `AppModel.Update`)

The Bubble Tea components that carry no state-machine content (spinners,
progress bar, help, lipgloss styles, the main-menu `list.Model`) are
omitted; the `table.Model` and `textinput.Model` components are modelled
by the two fields the program reads and writes (rows/cursor and
value/focus).  Rendering (`View` and helpers) is pure and not modelled.
The table cursor is a Go `int` (`Int`): the bubbles movement clamp
drives it to `-1` on an empty row set, the `>= len` bounds guards in
this file do not catch negative values, and the subsequent slice access
panics — modelled by an `Option` result (`none` = runtime panic). -/

inductive ScreenType where
  | mainMenuScreen
  | clusterListScreen
  | clusterDetailScreen
  | testConfigScreen
  | progressScreen
  | resultsScreen
deriving DecidableEq

/-- The rows/cursor state of a `bubbles/table.Model`.  A fresh
`table.Model{}` is `⟨[], 0⟩`.  The cursor is a Go `int`: the bubbles
movement clamp leaves it at `-1` on an empty row set. -/
structure TableModel where
  rows : List (List String)
  cursor : Int
deriving DecidableEq

/-- Model of `table.Model.Update` for the line-movement keys (`up`/`k`,
`down`/`j`), using the bubbles clamp `min(max(v, low), high)` with
`low = 0`, `high = len(rows)-1`; on an empty row set `high = -1`, so the
cursor becomes `-1`.  Other keys leave the model unchanged. -/
def tableUpdate (t : TableModel) (k : String) : TableModel :=
  if k = "up" ∨ k = "k" then
    { t with cursor := min (max (t.cursor - 1) 0) ((t.rows.length : Int) - 1) }
  else if k = "down" ∨ k = "j" then
    { t with cursor := min (max (t.cursor + 1) 0) ((t.rows.length : Int) - 1) }
  else t

/-- Go slice indexing `l[i]` for an `int` index: `none` models the
runtime panic on a negative or too-large index. -/
def goIndex {α : Type} (l : List α) (i : Int) : Option α :=
  if i < 0 then none else l[i.toNat]?

/-- The value/focus state of a `bubbles/textinput.Model`. -/
structure TextInputModel where
  value : String
  focused : Bool
deriving DecidableEq

/-- Model of `textinput.Model.Update` with the cursor at the end of the input:
printable characters are appended, backspace deletes the last character,
everything else is ignored.  An unfocused input ignores keys. -/
def textinputUpdate (ti : TextInputModel) (k : String) : TextInputModel :=
  if ¬ ti.focused then ti
  else if k = "backspace" then { ti with value := String.mk ti.value.data.dropLast }
  else if k.data.length = 1 then { ti with value := ti.value ++ k }
  else ti

/-- Model of `tui.ClusterDetailModel` (spinner omitted). -/
structure ClusterDetailModel where
  info : Option ClusterInfo
  password : String
  loginCmd : String
  loading : Bool
  updating : Bool
  table : TableModel
deriving DecidableEq

/-- Model of `tui.ClusterListModel` (spinner/progress omitted; `listItems` models
the items of the `list.Model`, whose length the program consults). -/
structure ClusterListModel where
  listItems : List ClusterItem
  loading : Bool
  clusters : List ClusterItem
  clusterInfo : List (String × ClusterInfo)
  clusterPasswords : List (String × String)
  table : TableModel
  searchInput : TextInputModel
  searching : Bool
  filteredRows : List (List String)
  selectedIndex : Nat
  detailView : ClusterDetailModel
  focusedPane : Nat
deriving DecidableEq

/-- Model of `tui.AppModel` (help/keys omitted; the notification expiry time is
modelled by the Boolean carried on `NotificationClearMsg`). -/
structure AppModel where
  screen : ScreenType
  previousScreen : ScreenType
  selectedCluster : String
  clusterList : ClusterListModel
  clusterDetail : ClusterDetailModel
  error : String
  notification : String
  width : Nat
  height : Nat
deriving DecidableEq

/-- The `tea.Cmd` values this state machine dispatches.  `notify` stands
for `showNotification` (the message plus its 3-second clear timer);
`copyThenNotify` stands for the synchronous `clipboardWriteAll` followed
by the success/failure notification; `selectionMsgCmd` is the closure
returned by `updateSelectedClusterDetails` that delivers a
`ClusterSelectionChangedMsg`. -/
inductive Cmd where
  | none
  | quit
  | spinnerTick
  | textinputBlink
  | loadClusters
  | loadClusterDetail (clusterName operation : String)
  | loadClusterPassword (clusterName : String)
  | loadSingleCluster (clusterName : String)
  | notify (message : String) (isError : Bool)
  | copyThenNotify (fieldName value : String)
  | selectionMsgCmd (clusterName : String) (cluster : ClusterItem)
  | batch (c₁ c₂ : Cmd)
deriving DecidableEq

/-- Whether a command (transitively) dispatches `loadClusterDetailCmd`,
the combined metadata+credential fetch. -/
def containsDetailFetch : Cmd → Bool
  | .loadClusterDetail _ _ => true
  | .batch c₁ c₂ => containsDetailFetch c₁ || containsDetailFetch c₂
  | _ => false

/-- Whether a command (transitively) dispatches any fetch that touches a
cluster (detail, credential, or single-cluster refresh). -/
def containsAnyFetch : Cmd → Bool
  | .loadClusterDetail _ _ => true
  | .loadClusterPassword _ => true
  | .loadSingleCluster _ => true
  | .loadClusters => true
  | .batch c₁ c₂ => containsAnyFetch c₁ || containsAnyFetch c₂
  | _ => false

/-- Whether a command (transitively) dispatches `loadSingleClusterCmd`. -/
def containsSingleRefresh : Cmd → Bool
  | .loadSingleCluster _ => true
  | .batch c₁ c₂ => containsSingleRefresh c₁ || containsSingleRefresh c₂
  | _ => false

/-- Whether a command (transitively) dispatches `loadClustersCmd`. -/
def containsLoadClusters : Cmd → Bool
  | .loadClusters => true
  | .batch c₁ c₂ => containsLoadClusters c₁ || containsLoadClusters c₂
  | _ => false

/-- Lifts a predicate on a non-panicking update step: a `none` result
(a Go runtime panic, which aborts the program) never satisfies it. -/
def stepOk (r : Option (AppModel × Cmd)) (P : AppModel → Cmd → Prop) : Prop :=
  match r with
  | none => False
  | some (m, cmd) => P m cmd

/-- The messages of the modelled `Update` branches. -/
inductive Msg where
  | key (k : String)
  | clustersLoaded (clusters : List ClusterItem)
      (clusterInfo : List (String × ClusterInfo))
  | clusterPasswordLoaded (clusterName password : String) (err : Option String)
  | clusterDetailLoaded (info : Option ClusterInfo) (password loginCmd : String)
      (err : Option String)
  | notification (message : String) (isError : Bool)
  | notificationClear (expired : Bool)
  | selectionChanged (clusterName : String) (cluster : ClusterItem)
deriving DecidableEq

def apiURLFor (name : String) : String :=
  "https://api." ++ name ++ ".rhos-psi.cnv-qe.rhood.us:6443"

def loginCmdFor (name password : String) : String :=
  "oc login --insecure-skip-tls-verify=true " ++ apiURLFor name ++
    " -u kubeadmin -p " ++ password

/-- The status cell of `updateClusterTableRows`. -/
def clusterRowStatus (c : ClusterItem) : String :=
  if c.accessible = true ∧ c.status = "Loading" then "🔄 Loading"
  else if c.accessible = true then "✅ Online"
  else if c.status = "Timeout" then "⏰ Timeout"
  else "❌ Offline"

/-- The status cell built in the `ClustersLoadedMsg` branch. -/
def loadedRowStatus (c : ClusterItem) : String :=
  if c.accessible = true then "✅ Online"
  else if c.status = "Timeout" then "⏰ Timeout"
  else "❌ Offline"

/-- Model of `AppModel.updateClusterTableRows`. -/
def updateClusterTableRowsFn (m : AppModel) : AppModel :=
  let rows := m.clusterList.clusters.map (fun c => [c.name, clusterRowStatus c])
  { m with clusterList.filteredRows := rows,
           clusterList.table.rows := rows }

/-- Model of `AppModel.setupRightPaneTable` (the width argument only affects column
widths, not the rows; a fresh focused table has cursor 0). -/
def setupRightPaneTable (m : AppModel) : AppModel :=
  match m.clusterList.detailView.info with
  | none => m
  | some info =>
    let rows :=
      if m.clusterList.detailView.updating then
        [["OCP Version", "Updating..."], ["MTV Version", "Updating..."],
         ["CNV Version", "Updating..."], ["Console URL", "Updating..."],
         ["Username", "Updating..."], ["Password", "Updating..."],
         ["Login Cmd", "Updating..."]]
      else
        [["OCP Version", info.OCPVersion], ["MTV Version", info.MTVVersion],
         ["CNV Version", info.CNVVersion], ["Console URL", info.ConsoleURL],
         ["Username", "kubeadmin"]]
        ++ (if m.clusterList.detailView.password ≠ "" then
              [["Password", m.clusterList.detailView.password]] else [])
        ++ (if m.clusterList.detailView.loginCmd ≠ "" then
              [["Login Cmd", m.clusterList.detailView.loginCmd]] else [])
    { m with clusterList.detailView.table := ⟨rows, 0⟩ }

/-- Model of `AppModel.setupClusterDetailTable`. -/
def setupClusterDetailTableFn (m : AppModel) : AppModel :=
  match m.clusterDetail.info with
  | none => m
  | some info =>
    let mtvDisplay :=
      if info.IIB ≠ "N/A" ∧ info.IIB ≠ "" ∧ info.MTVVersion ≠ "Not installed" then
        info.MTVVersion ++ " (" ++ info.IIB ++ ")"
      else info.MTVVersion
    let rows :=
      [["Username", "kubeadmin"]]
      ++ (if m.clusterDetail.password ≠ "" then
            [["Password", m.clusterDetail.password]] else [])
      ++ [["Console", info.ConsoleURL], ["OCP version", info.OCPVersion],
          ["MTV version", mtvDisplay], ["CNV version", info.CNVVersion]]
      ++ (if m.clusterDetail.loginCmd ≠ "" then
            [["Login", m.clusterDetail.loginCmd]] else [])
    { m with clusterDetail.table := ⟨rows, 0⟩ }

/-- Model of `AppModel.filterClusters`: case-insensitive substring match over every
cell of the stored (unfiltered) rows. -/
def filterClusters (m : AppModel) (query : String) : List (List String) :=
  if query = "" then m.clusterList.filteredRows
  else
    m.clusterList.filteredRows.filter
      (fun row => row.any (fun cell => goContains (goToLower cell) (goToLower query)))

/-- Model of `AppModel.updateSelectedClusterDetails`: reads the table cursor,
bounds-checks it against the visible rows (filtered rows while searching,
the cluster slice otherwise) and either emits a
`ClusterSelectionChangedMsg` command or does nothing.  The Go `>= len`
guards do not catch a negative cursor (reachable via the bubbles clamp on
an empty row set), on which the slice access panics: `none`. -/
def updateSelectedClusterDetails (m : AppModel) : Option Cmd :=
  let selectedIndex := m.clusterList.table.cursor
  if m.clusterList.searching then
    let filteredRows := m.clusterList.table.rows
    if selectedIndex ≥ (filteredRows.length : Int) then some Cmd.none
    else
      match goIndex filteredRows selectedIndex with
      | none => none
      | some selectedRow =>
        if selectedRow.length = 0 then some Cmd.none
        else
          let clusterName := selectedRow.getD 0 ""
          match m.clusterList.clusters.find? (fun c => decide (c.name = clusterName)) with
          | some c => some (Cmd.selectionMsgCmd c.name c)
          | none => some Cmd.none
  else
    if selectedIndex ≥ (m.clusterList.clusters.length : Int) then some Cmd.none
    else
      match goIndex m.clusterList.clusters selectedIndex with
      | none => none
      | some cluster => some (Cmd.selectionMsgCmd cluster.name cluster)

/-- Model of `AppModel.refreshClusterList` (the full refresh / `InvalidateAll`):
clears both caches and all cluster state, re-enters the loading state and
restarts discovery. -/
def refreshClusterList (m : AppModel) : AppModel × Cmd :=
  ({ m with
      clusterList.clusterInfo := [],
      clusterList.clusterPasswords := [],
      clusterList.clusters := [],
      clusterList.listItems := [],
      clusterList.table.rows := [],
      clusterList.filteredRows := [],
      clusterList.loading := true,
      clusterList.searching := false,
      clusterList.searchInput := { m.clusterList.searchInput with value := "", focused := false },
      error := "" },
    Cmd.batch Cmd.spinnerTick Cmd.loadClusters)

/-- The Go loop in the `ClusterDetailLoadedMsg` branch that patches the
matching cluster's versions and sets it Online (first match only). -/
def updateClusterVersions (cls : List ClusterItem) (info : ClusterInfo) :
    List ClusterItem :=
  match cls with
  | [] => []
  | c :: rest =>
    if c.name = info.Name then
      { c with ocpVersion := info.OCPVersion, mtvVersion := info.MTVVersion,
               cnvVersion := info.CNVVersion, status := "Online" } :: rest
    else c :: updateClusterVersions rest info

/-- Model of `AppModel.refreshSingleCluster` (the single-record refresh /
`Invalidate(name)`). -/
def refreshSingleCluster (m : AppModel) : Option (AppModel × Cmd) :=
  let selectedIndex := m.clusterList.table.cursor
  if selectedIndex ≥ (m.clusterList.clusters.length : Int) then
    some (m, Cmd.notify "No cluster selected" true)
  else
    match goIndex m.clusterList.clusters selectedIndex with
    | none => none
    | some selectedCluster =>
      if selectedCluster.accessible = false then
        some (m, Cmd.notify "Cannot refresh inaccessible cluster" true)
      else
        let m1 := { m with
          clusterList.clusterInfo := mapDelete m.clusterList.clusterInfo selectedCluster.name,
          clusterList.clusterPasswords :=
            mapDelete m.clusterList.clusterPasswords selectedCluster.name,
          clusterList.clusters := m.clusterList.clusters.set selectedIndex.toNat
            { name := selectedCluster.name, status := "Loading",
              ocpVersion := "", mtvVersion := "", cnvVersion := "", accessible := true } }
        let m2 := updateClusterTableRowsFn m1
        let m3 :=
          if m2.clusterList.detailView.info ≠ none then
            setupRightPaneTable { m2 with clusterList.detailView.updating := true }
          else m2
        some (m3, Cmd.batch (Cmd.loadSingleCluster selectedCluster.name)
          (Cmd.notify ("Refreshing " ++ selectedCluster.name ++ "...") false))

/-- Model of `AppModel.handleMainMenuSelection` (the menu holds the single
`list-clusters` item). -/
def handleMainMenuSelection (m : AppModel) : AppModel × Cmd :=
  let m1 := { m with previousScreen := ScreenType.mainMenuScreen,
                     screen := ScreenType.clusterListScreen }
  if m1.clusterList.loading = false ∧ m1.clusterList.listItems.length = 0 then
    ({ m1 with clusterList.loading := true },
      Cmd.batch Cmd.spinnerTick Cmd.loadClusters)
  else if m1.clusterList.loading then (m1, Cmd.spinnerTick)
  else (m1, Cmd.none)

/-- Model of `AppModel.handleRightPaneCopy`. -/
def handleRightPaneCopy (m : AppModel) : Option (AppModel × Cmd) :=
  if m.clusterList.detailView.info = none then
    some ({ m with error := "No cluster information available" }, Cmd.none)
  else
    let selectedIndex := m.clusterList.detailView.table.cursor
    let rows := m.clusterList.detailView.table.rows
    if selectedIndex ≥ (rows.length : Int) then
      some ({ m with error := "No field selected" }, Cmd.none)
    else
      match goIndex rows selectedIndex with
      | none => none
      | some selectedRow =>
        if selectedRow.length < 2 then
          some ({ m with error := "Invalid field data" }, Cmd.none)
        else
          some (m, Cmd.copyThenNotify (selectedRow.getD 0 "") (selectedRow.getD 1 ""))

/-- Model of `AppModel.handleClusterDetailTableCopy`. -/
def handleClusterDetailTableCopy (m : AppModel) : Option (AppModel × Cmd) :=
  let selectedIndex := m.clusterDetail.table.cursor
  let rows := m.clusterDetail.table.rows
  if selectedIndex ≥ (rows.length : Int) then
    some ({ m with error := "No row selected" }, Cmd.none)
  else
    match goIndex rows selectedIndex with
    | none => none
    | some selectedRow =>
      if selectedRow.length < 2 then
        some ({ m with error := "Invalid row data" }, Cmd.none)
      else
        some (m, Cmd.copyThenNotify (selectedRow.getD 0 "") (selectedRow.getD 1 ""))

/-- The screen-specific fall-through at the bottom of `AppModel.Update`,
reached by key messages that no case of the key switch consumed. -/
def updateScreens (m : AppModel) (k : String) : Option (AppModel × Cmd) :=
  if m.screen = ScreenType.mainMenuScreen then
    some (m, if m.clusterList.loading then Cmd.spinnerTick else Cmd.none)
  else if m.screen = ScreenType.clusterDetailScreen then
    if m.clusterDetail.loading = false then
      some ({ m with clusterDetail.table := tableUpdate m.clusterDetail.table k }, Cmd.none)
    else some (m, Cmd.spinnerTick)
  else if m.screen = ScreenType.clusterListScreen then
    if m.clusterList.loading then some (m, Cmd.spinnerTick)
    else if m.clusterList.searching then
      let si := textinputUpdate m.clusterList.searchInput k
      let filtered := filterClusters m si.value
      let m1 := { m with clusterList.searchInput := si,
                         clusterList.table.rows := filtered }
      if k = "up" ∨ k = "down" then
        let oldCursor := m1.clusterList.table.cursor
        let m2 := { m1 with clusterList.table := tableUpdate m1.clusterList.table k }
        if m2.clusterList.table.cursor ≠ oldCursor then
          match updateSelectedClusterDetails m2 with
          | none => none
          | some cmd => some (m2, cmd)
        else some (m2, Cmd.none)
      else some (m1, Cmd.none)
    else
      if m.clusterList.focusedPane = 0 then
        let oldCursor := m.clusterList.table.cursor
        let m1 := { m with clusterList.table := tableUpdate m.clusterList.table k }
        if m1.clusterList.table.cursor ≠ oldCursor then
          match updateSelectedClusterDetails m1 with
          | none => none
          | some cmd => some (m1, cmd)
        else some (m1, Cmd.none)
      else
        if m.clusterList.detailView.table.rows.length > 0 then
          some ({ m with clusterList.detailView.table :=
              tableUpdate m.clusterList.detailView.table k }, Cmd.none)
        else some (m, Cmd.none)
  else some (m, Cmd.none)

/-- Model of `AppModel.Update`.  A `none` result models a Go runtime
panic inside the update (a negative table cursor indexing a slice),
which aborts the program. -/
def update (m : AppModel) (msg : Msg) : Option (AppModel × Cmd) :=
  match msg with
  | .key k =>
    if k = "q" ∨ k = "ctrl+c" then some (m, Cmd.quit)
    else if k = "ctrl+r" then
      if m.screen = ScreenType.clusterListScreen ∨ m.screen = ScreenType.mainMenuScreen then
        some (refreshClusterList m)
      else updateScreens m k
    else if k = "ctrl+u" then
      if m.screen = ScreenType.clusterListScreen ∧ m.clusterList.loading = false ∧
          m.clusterList.searching = false then
        refreshSingleCluster m
      else updateScreens m k
    else if k = "/" then
      if m.screen = ScreenType.clusterListScreen ∧ m.clusterList.loading = false then
        some ({ m with clusterList.searching := true,
                       clusterList.searchInput.focused := true }, Cmd.textinputBlink)
      else updateScreens m k
    else if k = "esc" then
      if m.screen = ScreenType.clusterListScreen then
        if m.clusterList.searching then
          some ({ m with clusterList.searching := false,
                         clusterList.searchInput :=
                           { m.clusterList.searchInput with focused := false, value := "" },
                         clusterList.table.rows := m.clusterList.filteredRows }, Cmd.none)
        else
          some ({ m with screen := ScreenType.mainMenuScreen,
                         previousScreen := ScreenType.mainMenuScreen, error := "" }, Cmd.none)
      else if m.screen = ScreenType.clusterDetailScreen then
        some ({ m with screen := m.previousScreen,
                       previousScreen := ScreenType.mainMenuScreen, error := "" }, Cmd.none)
      else updateScreens m k
    else if k = "tab" ∨ k = "shift+tab" then
      if m.screen = ScreenType.clusterListScreen ∧ m.clusterList.loading = false ∧
          m.clusterList.searching = false then
        some ({ m with clusterList.focusedPane := 1 - m.clusterList.focusedPane }, Cmd.none)
      else updateScreens m k
    else if k = "enter" then
      if m.screen = ScreenType.mainMenuScreen then some (handleMainMenuSelection m)
      else if m.screen = ScreenType.clusterListScreen then
        if m.clusterList.focusedPane = 1 then handleRightPaneCopy m
        else some (m, Cmd.none)
      else if m.screen = ScreenType.clusterDetailScreen then
        handleClusterDetailTableCopy m
      else updateScreens m k
    else updateScreens m k
  | .clustersLoaded cls infoMap =>
    let rows := cls.map (fun c => [c.name, loadedRowStatus c])
    let m1 := { m with
      clusterList.loading := false,
      clusterList.clusters := cls,
      clusterList.clusterInfo := infoMap,
      clusterList.listItems := cls,
      clusterList.table.rows := rows,
      clusterList.filteredRows := rows }
    if cls.length > 0 then
      let m2 := { m1 with clusterList.table.cursor := 0 }
      match updateSelectedClusterDetails m2 with
      | none => none
      | some cmd => some (m2, cmd)
    else some (m1, Cmd.none)
  | .clusterPasswordLoaded clusterName password err =>
    match err with
    | some e => some ({ m with error := "Failed to get password: " ++ e }, Cmd.none)
    | none =>
      let m1 := { m with
        clusterList.clusterPasswords :=
          (mapInsert m.clusterList.clusterPasswords clusterName password),
        clusterList.detailView.password := password }
      let m2 :=
        match m1.clusterList.detailView.info with
        | some i => { m1 with clusterList.detailView.loginCmd := (loginCmdFor i.Name password) }
        | none => m1
      let m3 := { m2 with clusterList.detailView.table := ⟨[], 0⟩ }
      some (setupRightPaneTable m3, Cmd.none)
  | .clusterDetailLoaded info password loginCmd err =>
    if m.screen = ScreenType.clusterDetailScreen then
      let m1 := { m with clusterDetail.loading := false }
      match err with
      | some e => some ({ m1 with error := "Failed to load cluster details: " ++ e }, Cmd.none)
      | none =>
        match info with
        | some i =>
          let m2 := { m1 with
            clusterDetail.info := some i,
            clusterDetail.password := password,
            clusterDetail.loginCmd := loginCmd,
            clusterDetail.updating := false }
          let m3 :=
            if password ≠ "" then
              { m2 with clusterList.clusterPasswords :=
                  (mapInsert m2.clusterList.clusterPasswords i.Name password) }
            else m2
          some (setupClusterDetailTableFn m3, Cmd.none)
        | none => some (m1, Cmd.none)
    else
      let m1 := { m with clusterList.detailView.loading := false }
      let isRefresh :=
        match info with
        | some i => m1.clusterList.clusters.any
            (fun c => decide (c.name = i.Name) && decide (c.status = "Loading"))
        | none => false
      match err with
      | some e =>
        if isRefresh then
          let found :=
            match m1.clusterList.clusters.find? (fun c => decide (c.status = "Loading")) with
            | some c => c.name
            | none => ""
          let clusterName := if found = "" then "unknown cluster" else found
          some (m1, Cmd.notify ("Failed to refresh " ++ clusterName ++ ": " ++ e) true)
        else some ({ m1 with error := "Failed to load cluster details: " ++ e }, Cmd.none)
      | none =>
        match info with
        | some i =>
          let m2 := { m1 with clusterList.detailView :=
            ({ m1.clusterList.detailView with
                info := some i, password := password,
                loginCmd := loginCmd, updating := false }) }
          let m3 :=
            if password ≠ "" then
              { m2 with clusterList.clusterPasswords :=
                  (mapInsert m2.clusterList.clusterPasswords i.Name password) }
            else m2
          let m4 := { m3 with
            clusterList.clusterInfo := (mapInsert m3.clusterList.clusterInfo i.Name i),
            clusterList.clusters := (updateClusterVersions m3.clusterList.clusters i) }
          let m5 := updateClusterTableRowsFn m4
          let m6 :=
            if m5.clusterList.detailView.table.rows.length = 0 then
              setupRightPaneTable m5
            else m5
          let m7 := if isRefresh then setupRightPaneTable m6 else m6
          some (m7, if isRefresh then
            Cmd.notify ("✅ " ++ i.Name ++ " refreshed successfully") false
          else Cmd.none)
        | none => some (m1, Cmd.none)
  | .notification message isError =>
    if isError then some ({ m with error := message, notification := "" }, Cmd.none)
    else some ({ m with notification := message, error := "" }, Cmd.none)
  | .notificationClear expired =>
    if expired then some ({ m with notification := "" }, Cmd.none)
    else some (m, Cmd.none)
  | .selectionChanged clusterName cluster =>
    let m1 := { m with selectedCluster := clusterName }
    if cluster.accessible = false then
      some ({ m1 with clusterList.detailView :=
          ({ m1.clusterList.detailView with
              info := none, password := "", loginCmd := "",
              loading := false, table := ⟨[], 0⟩ }) }, Cmd.none)
    else
      match mapLookup m1.clusterList.clusterInfo cluster.name with
      | some cachedInfo =>
        let m2 := { m1 with
          clusterList.detailView.loading := false,
          clusterList.detailView.info := some cachedInfo }
        match mapLookup m2.clusterList.clusterPasswords cluster.name with
        | some cachedPassword =>
          let m3 := { m2 with
            clusterList.detailView.password := cachedPassword,
            clusterList.detailView.loginCmd :=
              (loginCmdFor cachedInfo.Name cachedPassword),
            clusterList.detailView.table := (⟨[], 0⟩ : TableModel) }
          some (setupRightPaneTable m3, Cmd.none)
        | none =>
          let m3 := { m2 with
            clusterList.detailView.password := "",
            clusterList.detailView.loginCmd := "",
            clusterList.detailView.table := (⟨[], 0⟩ : TableModel) }
          some (m3, Cmd.loadClusterPassword cluster.name)
      | none =>
        let m2 := { m1 with clusterList.detailView :=
          ({ m1.clusterList.detailView with
              loading := true, info := none, password := "",
              loginCmd := "", table := ⟨[], 0⟩ }) }
        some (m2, Cmd.batch Cmd.spinnerTick
          (Cmd.loadClusterDetail cluster.name "cluster-info"))

/-! ## Witness states -/

def emptyDetailView : ClusterDetailModel := ⟨none, "", "", false, false, ⟨[], 0⟩⟩

def witCluster : ClusterItem := ⟨"qemtv-a", "Online", "4.17.3", "2.7.0", "4.16.1", true⟩

def witOffCluster : ClusterItem := ⟨"qemtv-b", "Offline", "", "", "", false⟩

def witInfo : ClusterInfo :=
  ⟨"qemtv-a", "4.17.3", "2.7.0", "4.16.1", "iib:1", "https://console.example"⟩

def witModel : AppModel :=
  { screen := ScreenType.clusterListScreen,
    previousScreen := ScreenType.mainMenuScreen,
    selectedCluster := "",
    clusterList :=
      { listItems := [witCluster], loading := false, clusters := [witCluster],
        clusterInfo := [], clusterPasswords := [],
        table := ⟨[["qemtv-a", "✅ Online"]], 0⟩,
        searchInput := ⟨"", false⟩, searching := false,
        filteredRows := [["qemtv-a", "✅ Online"]], selectedIndex := 0,
        detailView := emptyDetailView, focusedPane := 0 },
    clusterDetail := emptyDetailView,
    error := "", notification := "", width := 120, height := 40 }

def witSearchModel : AppModel :=
  { witModel with clusterList.searching := true,
                  clusterList.searchInput := ⟨"qe", true⟩ }

def witLoadingModel : AppModel := { witModel with clusterList.loading := true }

def witOOBModel : AppModel :=
  { witModel with clusterList.table := ⟨[["qemtv-a", "✅ Online"]], 5⟩,
                  clusterList.detailView :=
                    (⟨some witInfo, "pw", "lc", false, false, ⟨[["Username", "kubeadmin"]], 7⟩⟩ :
                      ClusterDetailModel) }

def cex10Entries : List DirEntry :=
  [⟨"lost+found", true⟩, ⟨"qemtv-stray-file", false⟩, ⟨"qx-1", true⟩]

def witNegModel : AppModel :=
  { witModel with clusterList.table := ⟨[["qemtv-a", "✅ Online"]], -1⟩ }

/-! ## Counterexample states for the selection invariant

A two-cluster list: pressing `down` moves the cursor to 1, `/` enters
search mode, and typing `b` filters the visible rows down to the single
`qemtv-b` row while the bubbles cursor stays at 1 — past the end of the
visible set.  `cexC9Empty` is the state after a discovery run that found
no clusters; a movement key there clamps the cursor to `-1`. -/

def cexC9ClusterB : ClusterItem := ⟨"qemtv-b", "Online", "4.17.0", "2.6.0", "4.15.0", true⟩

def cexC9Model : AppModel :=
  { witModel with
      clusterList.clusters := [witCluster, cexC9ClusterB],
      clusterList.listItems := [witCluster, cexC9ClusterB],
      clusterList.table := ⟨[["qemtv-a", "✅ Online"], ["qemtv-b", "✅ Online"]], 0⟩,
      clusterList.filteredRows := [["qemtv-a", "✅ Online"], ["qemtv-b", "✅ Online"]] }

def cexC9s1 : AppModel :=
  ((update cexC9Model (Msg.key "down")).getD (cexC9Model, Cmd.none)).1

def cexC9s2 : AppModel :=
  ((update cexC9s1 (Msg.key "/")).getD (cexC9s1, Cmd.none)).1

def cexC9s3 : AppModel :=
  ((update cexC9s2 (Msg.key "b")).getD (cexC9s2, Cmd.none)).1

def cexC9Empty : AppModel :=
  ((update witLoadingModel (Msg.clustersLoaded [] [])).getD (witLoadingModel, Cmd.none)).1

/-! ## Theorems -/

theorem goLtb_asymm : ∀ a b, goLtb a b = true → goLtb b a = false := by
  intro a
  induction a with
  | nil => intro b h; cases b <;> simp [goLtb] at *
  | cons x xs ih =>
    intro b h
    cases b with
    | nil => simp [goLtb] at h
    | cons y ys =>
      simp only [goLtb] at h ⊢
      split at h
      · rename_i hxy
        rw [if_neg (asymm hxy), if_pos hxy]
      · split at h
        · exact absurd h (by simp)
        · rename_i h1 h2
          rw [if_neg h2, if_neg h1]
          exact ih ys h

theorem goLtb_trans_neg :
    ∀ a b c, goLtb b a = false → goLtb c b = false → goLtb c a = false := by
  intro a
  induction a with
  | nil =>
    intro b c _ _
    cases c with
    | nil => simp [goLtb]
    | cons z zs => cases b <;> simp_all [goLtb]
  | cons x xs ih =>
    intro b c h1 h2
    cases b with
    | nil => simp [goLtb] at h1
    | cons y ys =>
      cases c with
      | nil => simp [goLtb] at h2
      | cons z zs =>
        simp only [goLtb] at h1 h2 ⊢
        split at h1
        · exact absurd h1 (by simp)
        · split at h2
          · exact absurd h2 (by simp)
          · rename_i hyx hzy
            have hxy : x ≤ y := le_of_not_lt hyx
            have hyz : y ≤ z := le_of_not_lt hzy
            rw [if_neg (not_lt_of_ge (le_trans hxy hyz))]
            split
            · rfl
            · rename_i hxz
              have hzx : z = x := le_antisymm (le_of_not_lt hxz) (le_trans hxy hyz)
              have hyx' : y = x := le_antisymm (hyz.trans (le_of_eq hzx)) hxy
              rw [if_neg (by rw [hyx']; exact lt_irrefl x)] at h1
              rw [if_neg (by rw [hyx', hzx]; exact lt_irrefl x)] at h2
              exact ih ys zs h1 h2

instance : IsTotal ClusterItem clusterLe := ⟨by
  intro a b
  unfold clusterLe goStrLe
  rcases h : goLtb b.name.data a.name.data with _ | _
  · left; simp
  · right; simp [goLtb_asymm _ _ h]⟩

instance : IsTrans ClusterItem clusterLe := ⟨by
  intro a b c hab hbc
  unfold clusterLe goStrLe at *
  simp only [Bool.not_eq_true'] at *
  exact goLtb_trans_neg _ _ _ hab hbc⟩

theorem collectLoop_clean (outcome : String → ProbeOutcome) :
    ∀ (arrivals : List String) (total : Nat) (st : CollectState),
    (∀ nm ∈ arrivals, extractsOwnName nm (outcome nm) = true) →
    (∀ nm ∈ arrivals, nm ≠ "") →
    st.collected + arrivals.length ≤ total →
    (collectLoop total st (arrivals.map (fun nm => runProbe nm (outcome nm)))).clusters
        = st.clusters ++ collectedItems outcome arrivals ∧
    (collectLoop total st (arrivals.map (fun nm => runProbe nm (outcome nm)))).collected
        = st.collected + (arrivals.filter (fun nm => nonPanic (outcome nm))).length := by
  intro arrivals
  induction arrivals with
  | nil => intro total st _ _ _; simp [collectLoop, collectedItems]
  | cons nm rest ih =>
    intro total st hclean hne hle
    have hguard : st.collected < total := by
      simp only [List.length_cons] at hle; omega
    simp only [List.map_cons, collectLoop, if_pos hguard]
    have hcl := hclean nm (by simp)
    have hnm : ¬ (nm = "") := hne nm (by simp)
    have hclean' : ∀ x ∈ rest, extractsOwnName x (outcome x) = true :=
      fun x hx => hclean x (by simp [hx])
    have hne' : ∀ x ∈ rest, x ≠ "" := fun x hx => hne x (by simp [hx])
    have hle' : st.collected + 1 + rest.length ≤ total := by
      simp only [List.length_cons] at hle; omega
    cases ho : outcome nm with
    | ok info =>
      have hname : info.Name = nm := by
        rw [ho] at hcl; simpa [extractsOwnName] using hcl
      have hstep : processResult st (runProbe nm (ProbeOutcome.ok info))
          = ⟨st.collected + 1, st.clusters ++ [onlineItem info],
             mapInsert st.infoMap info.Name info⟩ := rfl
      rw [hstep]
      obtain ⟨ha, hb⟩ := ih total
        ⟨st.collected + 1, st.clusters ++ [onlineItem info],
          mapInsert st.infoMap info.Name info⟩ hclean' hne' hle'
      refine ⟨?_, ?_⟩
      · rw [ha]; simp [collectedItems, List.filterMap_cons, ho, arrivalItem,
          List.append_assoc]
      · rw [hb]; simp [List.filter_cons, ho, nonPanic]; omega
    | loginErr e =>
      have hext :
          extractClusterNameFromError ("login failed for " ++ nm ++ ": " ++ e) = nm := by
        rw [ho] at hcl; simpa [extractsOwnName] using hcl
      have hstep : processResult st (runProbe nm (ProbeOutcome.loginErr e))
          = ⟨st.collected + 1, st.clusters ++ [offlineItem nm], st.infoMap⟩ := by
        simp [processResult, runProbe, hext, hnm]
      rw [hstep]
      obtain ⟨ha, hb⟩ := ih total
        ⟨st.collected + 1, st.clusters ++ [offlineItem nm], st.infoMap⟩
        hclean' hne' hle'
      refine ⟨?_, ?_⟩
      · rw [ha]; simp [collectedItems, List.filterMap_cons, ho, arrivalItem,
          List.append_assoc]
      · rw [hb]; simp [List.filter_cons, ho, nonPanic]; omega
    | infoErr e =>
      have hext :
          extractClusterNameFromError ("cluster info failed for " ++ nm ++ ": " ++ e) = nm := by
        rw [ho] at hcl; simpa [extractsOwnName] using hcl
      have hstep : processResult st (runProbe nm (ProbeOutcome.infoErr e))
          = ⟨st.collected + 1, st.clusters ++ [offlineItem nm], st.infoMap⟩ := by
        simp [processResult, runProbe, hext, hnm]
      rw [hstep]
      obtain ⟨ha, hb⟩ := ih total
        ⟨st.collected + 1, st.clusters ++ [offlineItem nm], st.infoMap⟩
        hclean' hne' hle'
      refine ⟨?_, ?_⟩
      · rw [ha]; simp [collectedItems, List.filterMap_cons, ho, arrivalItem,
          List.append_assoc]
      · rw [hb]; simp [List.filter_cons, ho, nonPanic]; omega
    | panicked r =>
      have hext :
          extractClusterNameFromError ("panic in " ++ nm ++ ": " ++ r) = "" := by
        rw [ho] at hcl; simpa [extractsOwnName] using hcl
      have hstep : processResult st (runProbe nm (ProbeOutcome.panicked r)) = st := by
        simp [processResult, runProbe, hext]
      rw [hstep]
      obtain ⟨ha, hb⟩ := ih total st hclean' hne'
        (by simp only [List.length_cons] at hle; omega)
      refine ⟨?_, ?_⟩
      · rw [ha]; simp [collectedItems, List.filterMap_cons, ho, arrivalItem]
      · rw [hb]; simp [List.filter_cons, ho, nonPanic]

theorem candidate_ne_empty (entries : List DirEntry) :
    ∀ nm ∈ candidateNames entries, nm ≠ "" := by
  intro nm hnm
  simp only [candidateNames, List.mem_map, List.mem_filter] at hnm
  obtain ⟨e, ⟨_, hpass⟩, rfl⟩ := hnm
  intro hempty
  rw [hempty] at hpass
  simp [ goHasPrefix] at hpass

theorem collectedItems_names (outcome : String → ProbeOutcome) :
    ∀ (arrivals : List String),
    (∀ nm ∈ arrivals, extractsOwnName nm (outcome nm) = true) →
    (collectedItems outcome arrivals).map (fun c => c.name)
      = arrivals.filter (fun nm => nonPanic (outcome nm)) := by
  intro arrivals
  induction arrivals with
  | nil => intro _; simp [collectedItems]
  | cons nm rest ih =>
    intro hclean
    have hcl := hclean nm (by simp)
    have ih' := ih (fun x hx => hclean x (by simp [hx]))
    cases ho : outcome nm with
    | ok info =>
      have hname : info.Name = nm := by
        rw [ho] at hcl; simpa [extractsOwnName] using hcl
      simp [collectedItems, List.filterMap_cons, ho, arrivalItem, nonPanic,
        List.filter_cons, onlineItem, hname] at ih' ⊢
      exact ih'
    | loginErr e =>
      simp [collectedItems, List.filterMap_cons, ho, arrivalItem, nonPanic,
        List.filter_cons, offlineItem] at ih' ⊢
      exact ih'
    | infoErr e =>
      simp [collectedItems, List.filterMap_cons, ho, arrivalItem, nonPanic,
        List.filter_cons, offlineItem] at ih' ⊢
      exact ih'
    | panicked r =>
      simp [collectedItems, List.filterMap_cons, ho, arrivalItem, nonPanic,
        List.filter_cons] at ih' ⊢
      exact ih'

theorem any_name_iff (outcome : String → ProbeOutcome) (arrivals : List String)
    (hclean : ∀ nm ∈ arrivals, extractsOwnName nm (outcome nm) = true) (nm : String) :
    (collectedItems outcome arrivals).any (fun c => decide (c.name = nm)) = true
      ↔ nm ∈ arrivals.filter (fun a => nonPanic (outcome a)) := by
  rw [← collectedItems_names outcome arrivals hclean]
  constructor
  · intro h
    obtain ⟨c, hc, hcn⟩ := List.any_eq_true.mp h
    exact List.mem_map.mpr ⟨c, hc, of_decide_eq_true hcn⟩
  · intro h
    obtain ⟨c, hc, hcn⟩ := List.mem_map.mp h
    exact List.any_eq_true.mpr ⟨c, hc, decide_eq_true hcn⟩

/-- The final (pre-sort) record list a clean discovery run produces:
whatever the collection loop gathered, plus a synthesized Timeout record
for every candidate name not gathered.  If everything arrived and nothing
panicked, the synthesized part is empty. -/
theorem discovery_clusters_eq (entries : List DirEntry)
    (outcome : String → ProbeOutcome) (arrivals : List String)
    (hand : arrivals.Nodup)
    (hsub : ∀ nm ∈ arrivals, nm ∈ candidateNames entries)
    (hclean : ∀ nm ∈ arrivals, extractsOwnName nm (outcome nm) = true) :
    (loadClustersCmdRun (some entries) outcome arrivals).clusters
      = sortClusters
          (synthesizeTimeouts (candidateNames entries)
            (collectedItems outcome arrivals)) := by
  have hne : ∀ nm ∈ arrivals, nm ≠ "" :=
    fun nm hnm => candidate_ne_empty entries nm (hsub nm hnm)
  have hlen : arrivals.length ≤ (candidateNames entries).length :=
    (List.subperm_of_subset hand hsub).length_le
  obtain ⟨hcl, hco⟩ := collectLoop_clean outcome arrivals
    (candidateNames entries).length ⟨0, [], []⟩ hclean hne (by simpa using hlen)
  by_cases hzero : (candidateNames entries).length = 0
  · have hnames : candidateNames entries = [] := List.length_eq_zero.mp hzero
    have harr : arrivals = [] := by
      cases arrivals with
      | nil => rfl
      | cons a rest =>
        exact absurd (hsub a (by simp)) (by simp [hnames])
    simp [loadClustersCmdRun, hzero, harr, hnames, collectedItems,
      synthesizeTimeouts, sortClusters, List.insertionSort]
  · simp only [loadClustersCmdRun, if_neg hzero]
    set k := (arrivals.filter (fun nm => nonPanic (outcome nm))).length with hk
    by_cases htimeout :
        (collectLoop (candidateNames entries).length ⟨0, [], []⟩
          (arrivals.map (fun nm => runProbe nm (outcome nm)))).collected
          < (candidateNames entries).length
    · simp only [if_pos htimeout]
      rw [hcl]
      rfl
    · simp only [if_neg htimeout]
      rw [hco] at htimeout
      simp only [Nat.zero_add] at htimeout
      have hk_le : k ≤ arrivals.length := List.length_filter_le _ _
      have hkN : k = (candidateNames entries).length := by omega
      have harr_len : arrivals.length = (candidateNames entries).length := by omega
      have hfilter_all :
          arrivals.filter (fun nm => nonPanic (outcome nm)) = arrivals :=
        (List.filter_sublist _).eq_of_length (by omega)
      have hperm : List.Perm arrivals (candidateNames entries) :=
        (List.subperm_of_subset hand hsub).perm_of_length_le (le_of_eq harr_len.symm)
      have hsynth : synthesizeTimeouts (candidateNames entries)
          (collectedItems outcome arrivals) = collectedItems outcome arrivals := by
        unfold synthesizeTimeouts
        have hfe : (candidateNames entries).filter
            (fun nm => !((collectedItems outcome arrivals).any
              (fun c => decide (c.name = nm)))) = [] := by
          rw [List.filter_eq_nil_iff]
          intro nm hnm
          have hmem : nm ∈ arrivals.filter (fun a => nonPanic (outcome a)) := by
            rw [hfilter_all]
            exact hperm.symm.subset hnm
          simp [(any_name_iff outcome arrivals hclean nm).mpr hmem]
        rw [hfe]
        simp
      rw [hcl, hsynth]
      rfl

/-- The names of a clean discovery result are a permutation of the
candidate names. -/
theorem expected_names_perm (entries : List DirEntry)
    (outcome : String → ProbeOutcome) (arrivals : List String)
    (hnodup : (candidateNames entries).Nodup)
    (hand : arrivals.Nodup)
    (hsub : ∀ nm ∈ arrivals, nm ∈ candidateNames entries)
    (hclean : ∀ nm ∈ arrivals, extractsOwnName nm (outcome nm) = true) :
    List.Perm
      ((synthesizeTimeouts (candidateNames entries)
        (collectedItems outcome arrivals)).map (fun c => c.name))
      (candidateNames entries) := by
  set names := candidateNames entries with hnames
  set p : String → Bool :=
    fun nm => !((collectedItems outcome arrivals).any (fun c => decide (c.name = nm)))
    with hp
  have hnames_eq : (synthesizeTimeouts names (collectedItems outcome arrivals)).map
      (fun c => c.name)
      = arrivals.filter (fun a => nonPanic (outcome a)) ++ names.filter p := by
    unfold synthesizeTimeouts
    rw [List.map_append, collectedItems_names outcome arrivals hclean, List.map_map]
    congr 1
    have : ((fun c : ClusterItem => c.name) ∘ timeoutItem) = fun nm => nm := rfl
    rw [this, List.map_id']
  rw [hnames_eq]
  have hmem_iff : ∀ nm, p nm = true ↔ nm ∉ arrivals.filter (fun a => nonPanic (outcome a)) := by
    intro nm
    rw [hp, ← any_name_iff outcome arrivals hclean nm]
    simp
  have hnodup_lhs : (arrivals.filter (fun a => nonPanic (outcome a)) ++ names.filter p).Nodup := by
    refine List.Nodup.append (hand.filter _) (hnodup.filter _) ?_
    intro a ha hb
    have hpb : p a = true := List.of_mem_filter hb
    exact (hmem_iff a).mp hpb ha
  refine (List.perm_ext_iff_of_nodup hnodup_lhs hnodup).mpr ?_
  intro x
  constructor
  · intro hx
    rcases List.mem_append.mp hx with hx | hx
    · exact hsub x (List.mem_of_mem_filter hx)
    · exact List.mem_of_mem_filter hx
  · intro hx
    by_cases hx0 : x ∈ arrivals.filter (fun a => nonPanic (outcome a))
    · exact List.mem_append.mpr (Or.inl hx0)
    · refine List.mem_append.mpr (Or.inr (List.mem_filter.mpr ⟨hx, ?_⟩))
      exact (hmem_iff x).mpr hx0

theorem mem_expected_timeout (entries : List DirEntry)
    (outcome : String → ProbeOutcome) (arrivals : List String)
    (hclean : ∀ nm ∈ arrivals, extractsOwnName nm (outcome nm) = true)
    (nm : String) (hnm : nm ∈ candidateNames entries) (hnot : nm ∉ arrivals) :
    timeoutItem nm ∈ synthesizeTimeouts (candidateNames entries)
      (collectedItems outcome arrivals) := by
  unfold synthesizeTimeouts
  refine List.mem_append.mpr (Or.inr (List.mem_map.mpr ⟨nm, List.mem_filter.mpr ⟨hnm, ?_⟩, rfl⟩))
  have : ¬ ((collectedItems outcome arrivals).any (fun c => decide (c.name = nm)) = true) := by
    intro hany
    exact hnot (List.mem_of_mem_filter ((any_name_iff outcome arrivals hclean nm).mp hany))
  simpa using this

theorem mem_expected_arrival (names : List String)
    (outcome : String → ProbeOutcome) (arrivals : List String)
    (nm : String) (hnm : nm ∈ arrivals) (it : ClusterItem)
    (hit : arrivalItem nm (outcome nm) = some it) :
    it ∈ synthesizeTimeouts names (collectedItems outcome arrivals) := by
  unfold synthesizeTimeouts
  exact List.mem_append.mpr (Or.inl (List.mem_filterMap.mpr ⟨nm, hnm, hit⟩))

theorem expected_timeout_only (entries : List DirEntry)
    (outcome : String → ProbeOutcome) (arrivals : List String)
    (hclean : ∀ nm ∈ arrivals, extractsOwnName nm (outcome nm) = true)
    (c : ClusterItem)
    (hc : c ∈ synthesizeTimeouts (candidateNames entries)
      (collectedItems outcome arrivals))
    (hstatus : c.status = "Timeout") :
    c.name ∈ candidateNames entries ∧
      (c.name ∉ arrivals ∨ nonPanic (outcome c.name) = false) := by
  unfold synthesizeTimeouts at hc
  rcases List.mem_append.mp hc with hc | hc
  · obtain ⟨nm, _, hit⟩ := List.mem_filterMap.mp hc
    exfalso
    cases ho : outcome nm with
    | ok info =>
      rw [ho] at hit
      simp only [arrivalItem, Option.some.injEq] at hit
      rw [← hit] at hstatus
      simp [onlineItem] at hstatus
    | loginErr e =>
      rw [ho] at hit
      simp only [arrivalItem, Option.some.injEq] at hit
      rw [← hit] at hstatus
      simp [offlineItem] at hstatus
    | infoErr e =>
      rw [ho] at hit
      simp only [arrivalItem, Option.some.injEq] at hit
      rw [← hit] at hstatus
      simp [offlineItem] at hstatus
    | panicked r =>
      rw [ho] at hit
      simp [arrivalItem] at hit
  · obtain ⟨nm, hfil, rfl⟩ := List.mem_map.mp hc
    obtain ⟨hnames, hpred⟩ := List.mem_filter.mp hfil
    refine ⟨hnames, ?_⟩
    have hnot : ¬ (nm ∈ arrivals.filter (fun a => nonPanic (outcome a))) := by
      intro hmem
      have := (any_name_iff outcome arrivals hclean nm).mpr hmem
      simp [this] at hpred
    by_cases harr : nm ∈ arrivals
    · right
      by_contra hnp
      simp only [Bool.not_eq_false] at hnp
      exact hnot (List.mem_filter.mpr ⟨harr, hnp⟩)
    · left; exact harr

/-! ## C1: record count, uniqueness and ordering of a discovery run -/

/-- C1 (amended): for any set of N candidate cluster names in which
every arriving probe's result is attributable to exactly its own name
(`extractsOwnName`, which holds for all ordinary names — see
`discovery_count_cex` for how a name containing a colon breaks it), one
discovery run returns exactly N `ClusterItem`s with pairwise-distinct
names, sorted lexicographically by name, regardless of which probes
complete and in which order their results arrive. -/
theorem discovery_exact_sorted_unique (entries : List DirEntry)
    (outcome : String → ProbeOutcome) (arrivals : List String)
    (hnodup : (candidateNames entries).Nodup)
    (hand : arrivals.Nodup)
    (hsub : ∀ nm ∈ arrivals, nm ∈ candidateNames entries)
    (hclean : ∀ nm ∈ arrivals, extractsOwnName nm (outcome nm) = true) :
    (loadClustersCmdRun (some entries) outcome arrivals).clusters.length
        = (candidateNames entries).length ∧
    ((loadClustersCmdRun (some entries) outcome arrivals).clusters.map
        (fun c => c.name)).Nodup ∧
    List.Sorted clusterLe (loadClustersCmdRun (some entries) outcome arrivals).clusters := by
  have he := discovery_clusters_eq entries outcome arrivals hand hsub hclean
  have hperm : List.Perm
      ((loadClustersCmdRun (some entries) outcome arrivals).clusters.map (fun c => c.name))
      (candidateNames entries) := by
    rw [he]
    exact ((List.perm_insertionSort clusterLe _).map _).trans
      (expected_names_perm entries outcome arrivals hnodup hand hsub hclean)
  refine ⟨?_, ?_, ?_⟩
  · have := hperm.length_eq
    simpa using this
  · exact hperm.nodup_iff.mpr hnodup
  · rw [he]
    exact List.sorted_insertionSort clusterLe _

/-- C1 fails as stated: with the two candidate names `qemtv-a:b` and
`qemtv-c`, where `qemtv-a:b`'s probe fails login before the deadline and
`qemtv-c` never reports, the error-message name extraction truncates
`qemtv-a:b` at the colon, so the run produces three records (an Offline
`qemtv-a`, plus synthesized Timeouts for both candidates) instead of two. -/
theorem discovery_count_cex :
    ¬ ((loadClustersCmdRun (some cex1Entries) cex1Outcome ["qemtv-a:b"]).clusters.length
        = (candidateNames cex1Entries).length) := by decide

theorem discovery_exact_sorted_unique_witness :
    (candidateNames wit1Entries).Nodup ∧
    (["qemtv-b", "qemtv-a"] : List String).Nodup ∧
    (∀ nm ∈ (["qemtv-b", "qemtv-a"] : List String), nm ∈ candidateNames wit1Entries) ∧
    (∀ nm ∈ (["qemtv-b", "qemtv-a"] : List String),
      extractsOwnName nm (wit1Outcome nm) = true) ∧
    ((loadClustersCmdRun (some wit1Entries) wit1Outcome ["qemtv-b", "qemtv-a"]).clusters.length
        = (candidateNames wit1Entries).length ∧
      ((loadClustersCmdRun (some wit1Entries) wit1Outcome ["qemtv-b", "qemtv-a"]).clusters.map
        (fun c => c.name)).Nodup ∧
      List.Sorted clusterLe
        (loadClustersCmdRun (some wit1Entries) wit1Outcome ["qemtv-b", "qemtv-a"]).clusters) :=
  ⟨by decide, by decide, by decide, by decide,
    discovery_exact_sorted_unique wit1Entries wit1Outcome ["qemtv-b", "qemtv-a"]
      (by decide) (by decide) (by decide) (by decide)⟩

/-! ## C2: deadline synthesis of Timeout records -/

/-- C2 (amended): when the deadline fires, every candidate whose probe
has not reported is synthesized as a `timeoutItem` (status `"Timeout"`,
blank version fields); every arriving result the loop can attribute
(`arrivalItem` — success or a classified login/info failure) is reported
with its actual data; and a record ends with status `"Timeout"` only if
its probe either did not report in time or reported a panic result (which
the loop cannot attribute and therefore drops — see
`discovery_timeout_cex`). -/
theorem discovery_timeout_synthesis (entries : List DirEntry)
    (outcome : String → ProbeOutcome) (arrivals : List String)
    (hand : arrivals.Nodup)
    (hsub : ∀ nm ∈ arrivals, nm ∈ candidateNames entries)
    (hclean : ∀ nm ∈ arrivals, extractsOwnName nm (outcome nm) = true) :
    (∀ nm ∈ candidateNames entries, nm ∉ arrivals →
      timeoutItem nm ∈ (loadClustersCmdRun (some entries) outcome arrivals).clusters) ∧
    (∀ nm ∈ arrivals, ∀ it, arrivalItem nm (outcome nm) = some it →
      it ∈ (loadClustersCmdRun (some entries) outcome arrivals).clusters) ∧
    (∀ c ∈ (loadClustersCmdRun (some entries) outcome arrivals).clusters,
      c.status = "Timeout" →
        c.name ∈ candidateNames entries ∧
          (c.name ∉ arrivals ∨ nonPanic (outcome c.name) = false)) := by
  have he := discovery_clusters_eq entries outcome arrivals hand hsub hclean
  have hmem : ∀ c : ClusterItem,
      c ∈ (loadClustersCmdRun (some entries) outcome arrivals).clusters ↔
      c ∈ synthesizeTimeouts (candidateNames entries) (collectedItems outcome arrivals) := by
    intro c
    rw [he]
    exact (List.perm_insertionSort clusterLe _).mem_iff
  refine ⟨?_, ?_, ?_⟩
  · intro nm hnm hnot
    exact (hmem _).mpr (mem_expected_timeout entries outcome arrivals hclean nm hnm hnot)
  · intro nm hnm it hit
    exact (hmem _).mpr (mem_expected_arrival _ outcome arrivals nm hnm it hit)
  · intro c hc hstatus
    exact expected_timeout_only entries outcome arrivals hclean c ((hmem c).mp hc) hstatus

/-- C2 fails as stated: `qemtv-b`'s probe panics and its recovered
result arrives well within the deadline, yet the collection loop cannot
extract a cluster name from the `"panic in ..."` message, skips the
result without counting it, and the deadline path then synthesizes
`qemtv-b` as Timeout — a cluster that *did* report ends as Timeout. -/
theorem discovery_timeout_cex :
    timeoutItem "qemtv-b" ∈
      (loadClustersCmdRun (some cex2Entries) cex2Outcome ["qemtv-a", "qemtv-b"]).clusters
    ∧ "qemtv-b" ∈ (["qemtv-a", "qemtv-b"] : List String) := by decide

theorem discovery_timeout_synthesis_witness :
    (["qemtv-a"] : List String).Nodup ∧
    (∀ nm ∈ (["qemtv-a"] : List String), nm ∈ candidateNames cex2Entries) ∧
    (∀ nm ∈ (["qemtv-a"] : List String), extractsOwnName nm (cex2Outcome nm) = true) ∧
    timeoutItem "qemtv-b" ∈
      (loadClustersCmdRun (some cex2Entries) cex2Outcome ["qemtv-a"]).clusters :=
  ⟨by decide, by decide, by decide,
    (discovery_timeout_synthesis cex2Entries cex2Outcome ["qemtv-a"]
      (by decide) (by decide) (by decide)).1 "qemtv-b" (by decide) (by decide)⟩

/-! ## C3: fault isolation of a panicking probe -/

/-- C3: a panic inside one probe is recovered at the probe boundary
(the deferred `recover` turns it into an error result, so the model's
total `loadClustersCmdRun` returning at all corresponds to the process
surviving); the batch still completes with one record per candidate, the
panicking cluster is reported as a failure (`accessible = false`), and
every other cluster's result is still collected and reported with its
actual data. -/
theorem probe_fault_isolated (entries : List DirEntry)
    (outcome : String → ProbeOutcome) (arrivals : List String)
    (hnodup : (candidateNames entries).Nodup)
    (hand : arrivals.Nodup)
    (hsub : ∀ nm ∈ arrivals, nm ∈ candidateNames entries)
    (hall : ∀ nm ∈ candidateNames entries, nm ∈ arrivals)
    (hclean : ∀ nm ∈ arrivals, extractsOwnName nm (outcome nm) = true)
    (p : String) (r : String)
    (hp : p ∈ candidateNames entries)
    (houtp : outcome p = ProbeOutcome.panicked r)
    (hothers : ∀ nm ∈ arrivals, nm ≠ p → nonPanic (outcome nm) = true) :
    (loadClustersCmdRun (some entries) outcome arrivals).clusters.length
        = (candidateNames entries).length ∧
    (∃ c ∈ (loadClustersCmdRun (some entries) outcome arrivals).clusters,
      c.name = p ∧ c.accessible = false) ∧
    (∀ nm ∈ candidateNames entries, nm ≠ p → ∃ it,
      arrivalItem nm (outcome nm) = some it ∧
        it ∈ (loadClustersCmdRun (some entries) outcome arrivals).clusters) := by
  have he := discovery_clusters_eq entries outcome arrivals hand hsub hclean
  have hmem : ∀ c : ClusterItem,
      c ∈ (loadClustersCmdRun (some entries) outcome arrivals).clusters ↔
      c ∈ synthesizeTimeouts (candidateNames entries) (collectedItems outcome arrivals) := by
    intro c
    rw [he]
    exact (List.perm_insertionSort clusterLe _).mem_iff
  refine ⟨?_, ?_, ?_⟩
  · have hperm : List.Perm
        ((loadClustersCmdRun (some entries) outcome arrivals).clusters.map (fun c => c.name))
        (candidateNames entries) := by
      rw [he]
      exact ((List.perm_insertionSort clusterLe _).map _).trans
        (expected_names_perm entries outcome arrivals hnodup hand hsub hclean)
    have := hperm.length_eq
    simpa using this
  · refine ⟨timeoutItem p, ?_, rfl, rfl⟩
    refine (hmem _).mpr ?_
    unfold synthesizeTimeouts
    refine List.mem_append.mpr (Or.inr (List.mem_map.mpr
      ⟨p, List.mem_filter.mpr ⟨hp, ?_⟩, rfl⟩))
    have hnotfil : ¬ (p ∈ arrivals.filter (fun a => nonPanic (outcome a))) := by
      intro hmemf
      have := List.of_mem_filter hmemf
      rw [houtp] at this
      simp [nonPanic] at this
    have : ¬ ((collectedItems outcome arrivals).any (fun c => decide (c.name = p)) = true) :=
      fun hany => hnotfil ((any_name_iff outcome arrivals hclean p).mp hany)
    simpa using this
  · intro nm hnm hne
    have harr : nm ∈ arrivals := hall nm hnm
    cases ho : outcome nm with
    | ok info =>
      exact ⟨onlineItem info, by simp [arrivalItem, ho],
        (hmem _).mpr (mem_expected_arrival _ outcome arrivals nm harr _
          (by simp [arrivalItem, ho]))⟩
    | loginErr e =>
      exact ⟨offlineItem nm, by simp [arrivalItem, ho],
        (hmem _).mpr (mem_expected_arrival _ outcome arrivals nm harr _
          (by simp [arrivalItem, ho]))⟩
    | infoErr e =>
      exact ⟨offlineItem nm, by simp [arrivalItem, ho],
        (hmem _).mpr (mem_expected_arrival _ outcome arrivals nm harr _
          (by simp [arrivalItem, ho]))⟩
    | panicked r' =>
      exfalso
      have := hothers nm harr hne
      rw [ho] at this
      simp [nonPanic] at this

theorem probe_fault_isolated_witness :
    (candidateNames wit3Entries).Nodup ∧
    (["qemtv-c", "qemtv-b", "qemtv-a"] : List String).Nodup ∧
    (∀ nm ∈ (["qemtv-c", "qemtv-b", "qemtv-a"] : List String),
      nm ∈ candidateNames wit3Entries) ∧
    (∀ nm ∈ candidateNames wit3Entries,
      nm ∈ (["qemtv-c", "qemtv-b", "qemtv-a"] : List String)) ∧
    (∀ nm ∈ (["qemtv-c", "qemtv-b", "qemtv-a"] : List String),
      extractsOwnName nm (wit3Outcome nm) = true) ∧
    "qemtv-b" ∈ candidateNames wit3Entries ∧
    wit3Outcome "qemtv-b" = ProbeOutcome.panicked "index out of range" ∧
    ((loadClustersCmdRun (some wit3Entries) wit3Outcome
        ["qemtv-c", "qemtv-b", "qemtv-a"]).clusters.length
      = (candidateNames wit3Entries).length ∧
    (∃ c ∈ (loadClustersCmdRun (some wit3Entries) wit3Outcome
        ["qemtv-c", "qemtv-b", "qemtv-a"]).clusters,
      c.name = "qemtv-b" ∧ c.accessible = false) ∧
    (∀ nm ∈ candidateNames wit3Entries, nm ≠ "qemtv-b" → ∃ it,
      arrivalItem nm (wit3Outcome nm) = some it ∧
        it ∈ (loadClustersCmdRun (some wit3Entries) wit3Outcome
          ["qemtv-c", "qemtv-b", "qemtv-a"]).clusters)) :=
  ⟨by decide, by decide, by decide, by decide, by decide, by decide, by decide,
    probe_fault_isolated wit3Entries wit3Outcome ["qemtv-c", "qemtv-b", "qemtv-a"]
      (by decide) (by decide) (by decide) (by decide) (by decide)
      "qemtv-b" "index out of range" (by decide) (by decide) (by decide)⟩

/-! ## Cache lemmas and `Update` branch lemmas -/

theorem mapLookup_cons {α : Type} (p : String × α) (rest : List (String × α))
    (k : String) :
    mapLookup (p :: rest) k = if p.1 = k then some p.2 else mapLookup rest k := by
  by_cases h : p.1 = k
  · simp [mapLookup, List.find?_cons_of_pos, h]
  · simp only [mapLookup, if_neg h]
    rw [List.find?_cons_of_neg]
    simp [h]

theorem mapLookup_mapInsert_self {α : Type} (mp : List (String × α)) (k : String)
    (v : α) : mapLookup (mapInsert mp k v) k = some v := by
  by_cases h : mp.any (fun p => decide (p.1 = k)) = true
  · unfold mapInsert
    rw [if_pos h]
    induction mp with
    | nil => simp at h
    | cons p rest ih =>
      simp only [List.map_cons]
      by_cases hp : p.1 = k
      · rw [if_pos hp, mapLookup_cons]
        simp
      · rw [if_neg hp, mapLookup_cons, if_neg hp]
        refine ih ?_
        simp only [List.any_cons, Bool.or_eq_true, decide_eq_true_eq] at h
        rcases h with h | h
        · exact absurd h hp
        · exact h
  · unfold mapInsert
    rw [if_neg h]
    induction mp with
    | nil => simp [mapLookup_cons]
    | cons p rest ih =>
      have hp : ¬ (p.1 = k) := by
        intro hk
        exact h (by simp [List.any_cons, hk])
      rw [List.cons_append, mapLookup_cons, if_neg hp]
      refine ih ?_
      intro hany
      exact h (by simp only [List.any_cons, hany, Bool.or_true])

theorem setupRightPaneTable_clusterInfo (m : AppModel) :
    (setupRightPaneTable m).clusterList.clusterInfo = m.clusterList.clusterInfo := by
  unfold setupRightPaneTable
  cases m.clusterList.detailView.info <;> simp

theorem setupRightPaneTable_dvInfo (m : AppModel) :
    (setupRightPaneTable m).clusterList.detailView.info
      = m.clusterList.detailView.info := by
  unfold setupRightPaneTable
  cases h : m.clusterList.detailView.info <;> simp [h]

theorem setupRightPaneTable_dvLoading (m : AppModel) :
    (setupRightPaneTable m).clusterList.detailView.loading
      = m.clusterList.detailView.loading := by
  unfold setupRightPaneTable
  cases m.clusterList.detailView.info <;> simp

theorem updateClusterTableRowsFn_clusterInfo (m : AppModel) :
    (updateClusterTableRowsFn m).clusterList.clusterInfo
      = m.clusterList.clusterInfo := rfl

theorem updateClusterTableRowsFn_dv (m : AppModel) :
    (updateClusterTableRowsFn m).clusterList.detailView
      = m.clusterList.detailView := rfl

/-- A `ClusterSelectionChangedMsg` for an accessible cluster with no
cache entry: the detail pane enters loading state and the combined
detail fetch is dispatched; the cache itself and the screen are
untouched (this branch reads no index, so it cannot panic). -/
theorem selection_cache_miss (m : AppModel) (c : ClusterItem)
    (hacc : c.accessible = true)
    (hmiss : mapLookup m.clusterList.clusterInfo c.name = none) :
    update m (.selectionChanged c.name c)
      = some ({ m with selectedCluster := c.name,
                       clusterList.detailView :=
                         ({ m.clusterList.detailView with
                             loading := true, info := none, password := "",
                             loginCmd := "", table := ⟨[], 0⟩ }) },
              Cmd.batch Cmd.spinnerTick (Cmd.loadClusterDetail c.name "cluster-info")) := by
  simp [update, hacc, hmiss]

/-- A `ClusterSelectionChangedMsg` for an accessible cluster whose info is
cached: the step does not panic, the detail pane is served synchronously
from the cache and no detail fetch is dispatched (at most a credential
fetch when only the password is missing). -/
theorem selection_cache_hit (m : AppModel) (c : ClusterItem) (info : ClusterInfo)
    (hacc : c.accessible = true)
    (hhit : mapLookup m.clusterList.clusterInfo c.name = some info) :
    stepOk (update m (.selectionChanged c.name c)) (fun mr cmdr =>
      containsDetailFetch cmdr = false ∧
      mr.clusterList.detailView.info = some info ∧
      mr.clusterList.detailView.loading = false) := by
  cases hpw : mapLookup m.clusterList.clusterPasswords c.name with
  | none =>
    simp [stepOk, update, hacc, hhit, hpw, containsDetailFetch]
  | some cachedPassword =>
    simp [stepOk, update, hacc, hhit, hpw, containsDetailFetch,
      setupRightPaneTable_dvInfo, setupRightPaneTable_dvLoading]

theorem stepOk_mono {r : Option (AppModel × Cmd)} {P Q : AppModel → Cmd → Prop}
    (h : stepOk r P) (himp : ∀ mr cmdr, P mr cmdr → Q mr cmdr) : stepOk r Q := by
  cases r with
  | none => exact h.elim
  | some p =>
    obtain ⟨mr, cmdr⟩ := p
    exact himp mr cmdr h

/-- A successful `ClusterDetailLoadedMsg` consumed outside the legacy
detail screen does not panic and writes the fetched info into the
metadata cache. -/
theorem detailLoaded_caches (m : AppModel) (i : ClusterInfo) (pw lc : String)
    (hscreen : m.screen ≠ ScreenType.clusterDetailScreen) :
    stepOk (update m (.clusterDetailLoaded (some i) pw lc none)) (fun mr _ =>
      mr.clusterList.clusterInfo = mapInsert m.clusterList.clusterInfo i.Name i) := by
  simp only [update, if_neg hscreen]
  split_ifs <;>
    simp [stepOk, setupRightPaneTable_clusterInfo, updateClusterTableRowsFn_clusterInfo]

/-! ## C4: the metadata cache is fetched at most once -/

/-- C4: selecting an accessible cluster whose metadata is not cached
dispatches the combined detail fetch; none of the three steps panics, and
once the fetched result has been consumed (which writes it into the
metadata cache), selecting the same cluster again performs no new detail
fetch — the detail pane is served synchronously from the cache. -/
theorem cache_fetch_only_once (m : AppModel) (c : ClusterItem)
    (info : ClusterInfo) (pw lc : String)
    (hacc : c.accessible = true)
    (hmiss : mapLookup m.clusterList.clusterInfo c.name = none)
    (hscreen : m.screen ≠ ScreenType.clusterDetailScreen)
    (hname : info.Name = c.name) :
    stepOk (update m (.selectionChanged c.name c)) (fun m1 cmd1 =>
      containsDetailFetch cmd1 = true ∧
      stepOk (update m1 (.clusterDetailLoaded (some info) pw lc none)) (fun m2 _ =>
        stepOk (update m2 (.selectionChanged c.name c)) (fun m3 cmd3 =>
          containsDetailFetch cmd3 = false ∧
          m3.clusterList.detailView.info = some info ∧
          m3.clusterList.detailView.loading = false))) := by
  rw [selection_cache_miss m c hacc hmiss]
  refine ⟨rfl, ?_⟩
  refine stepOk_mono (detailLoaded_caches _ info pw lc hscreen) ?_
  intro m2 cmd2 hcache
  have hhit : mapLookup m2.clusterList.clusterInfo c.name = some info := by
    rw [hcache, ← hname]
    exact mapLookup_mapInsert_self _ info.Name info
  exact selection_cache_hit m2 c info hacc hhit

theorem cache_fetch_only_once_witness :
    witCluster.accessible = true ∧
    mapLookup witModel.clusterList.clusterInfo witCluster.name = none ∧
    witInfo.Name = witCluster.name ∧
    stepOk (update witModel (.selectionChanged witCluster.name witCluster)) (fun m1 cmd1 =>
      containsDetailFetch cmd1 = true ∧
      stepOk (update m1 (.clusterDetailLoaded (some witInfo) "pw" "lc" none)) (fun m2 _ =>
        stepOk (update m2 (.selectionChanged witCluster.name witCluster)) (fun m3 cmd3 =>
          containsDetailFetch cmd3 = false ∧
          m3.clusterList.detailView.info = some witInfo ∧
          m3.clusterList.detailView.loading = false))) :=
  ⟨by decide, by decide, by decide,
    cache_fetch_only_once witModel witCluster witInfo "pw" "lc"
      (by decide) (by decide) (by decide) (by decide)⟩

/-! ## C5: full refresh clears both caches -/

/-- C5: the full refresh (`ctrl+r` → `refreshClusterList`, the
`InvalidateAll`) empties both the metadata cache and the credential
cache and restarts discovery; any subsequent selection of an accessible
cluster therefore misses the cache and dispatches a fresh fetch. -/
theorem full_refresh_clears_both_caches (m : AppModel) (c : ClusterItem)
    (hacc : c.accessible = true)
    (hscreen : m.screen = ScreenType.clusterListScreen ∨
      m.screen = ScreenType.mainMenuScreen) :
    update m (.key "ctrl+r") = some (refreshClusterList m) ∧
    (refreshClusterList m).1.clusterList.clusterInfo = [] ∧
    (refreshClusterList m).1.clusterList.clusterPasswords = [] ∧
    containsLoadClusters (refreshClusterList m).2 = true ∧
    stepOk (update (refreshClusterList m).1 (.selectionChanged c.name c))
      (fun _ cmds => containsDetailFetch cmds = true) := by
  refine ⟨?_, rfl, rfl, rfl, ?_⟩
  · rcases hscreen with h | h <;> simp [update, h]
  · rw [selection_cache_miss (refreshClusterList m).1 c hacc rfl]
    exact rfl

theorem full_refresh_clears_both_caches_witness :
    witCluster.accessible = true ∧
    (witModel.screen = ScreenType.clusterListScreen ∨
      witModel.screen = ScreenType.mainMenuScreen) ∧
    (update witModel (.key "ctrl+r") = some (refreshClusterList witModel) ∧
      (refreshClusterList witModel).1.clusterList.clusterInfo = [] ∧
      (refreshClusterList witModel).1.clusterList.clusterPasswords = [] ∧
      containsLoadClusters (refreshClusterList witModel).2 = true ∧
      stepOk (update (refreshClusterList witModel).1
          (.selectionChanged witCluster.name witCluster))
        (fun _ cmds => containsDetailFetch cmds = true)) :=
  ⟨by decide, Or.inl (by decide),
    full_refresh_clears_both_caches witModel witCluster (by decide)
      (Or.inl (by decide))⟩

/-! ## C6: selecting an inaccessible record -/

/-- C6: a selection-changed event for a record with
`accessible = false` dispatches nothing (the command is `Cmd.none`, so in
particular no detail or credential fetch) and clears the detail pane:
info, password, login command and detail table are all reset. -/
theorem inaccessible_selection_clears (m : AppModel) (c : ClusterItem)
    (hacc : c.accessible = false) :
    update m (.selectionChanged c.name c)
      = some ({ m with selectedCluster := c.name,
                       clusterList.detailView :=
                         ({ m.clusterList.detailView with
                             info := none, password := "",
                             loginCmd := "", loading := false, table := ⟨[], 0⟩ }) },
              Cmd.none) := by
  simp [update, hacc]

theorem inaccessible_selection_clears_witness :
    witOffCluster.accessible = false ∧
    update witOOBModel (.selectionChanged witOffCluster.name witOffCluster)
      = some ({ witOOBModel with selectedCluster := witOffCluster.name,
                                 clusterList.detailView :=
                                   ({ witOOBModel.clusterList.detailView with
                                       info := none, password := "",
                                       loginCmd := "", loading := false, table := ⟨[], 0⟩ }) },
              Cmd.none) :=
  ⟨by decide, inaccessible_selection_clears witOOBModel witOffCluster (by decide)⟩

/-! ## C7: Esc on the cluster list -/

/-- C7: on the ClusterList screen, Esc while searching exits search
mode — the query is cleared, the input blurred, and the table rows are
restored to the stored unfiltered row set (`filteredRows` holds the full
row set; it is only ever written with the rows of *all* clusters) — while
the screen itself is unchanged; Esc while not searching navigates back to
the MainMenu screen. -/
theorem esc_exits_search_then_screen (m : AppModel)
    (h : m.screen = ScreenType.clusterListScreen) :
    (m.clusterList.searching = true →
      update m (.key "esc")
        = some ({ m with clusterList.searching := false,
                         clusterList.searchInput :=
                           ({ m.clusterList.searchInput with focused := false, value := "" }),
                         clusterList.table.rows := m.clusterList.filteredRows },
                Cmd.none)) ∧
    (m.clusterList.searching = false →
      update m (.key "esc")
        = some ({ m with screen := ScreenType.mainMenuScreen,
                         previousScreen := ScreenType.mainMenuScreen, error := "" },
                Cmd.none)) := by
  constructor <;> intro hs <;> simp [update, h, hs]

theorem esc_exits_search_then_screen_witness :
    update witSearchModel (.key "esc")
      = some ({ witSearchModel with
                 clusterList.searching := false,
                 clusterList.searchInput :=
                   ({ witSearchModel.clusterList.searchInput with
                       focused := false, value := "" }),
                 clusterList.table.rows := witSearchModel.clusterList.filteredRows },
              Cmd.none) ∧
    update witModel (.key "esc")
      = some ({ witModel with screen := ScreenType.mainMenuScreen,
                              previousScreen := ScreenType.mainMenuScreen, error := "" },
              Cmd.none) :=
  ⟨(esc_exits_search_then_screen witSearchModel rfl).1 rfl,
   (esc_exits_search_then_screen witModel rfl).2 rfl⟩

/-! ## C8: in-flight guards on the keybindings -/

/-- C8: while a full refresh is in flight (`loading = true`), the
single-record refresh key `ctrl+u` is a no-op — the state is unchanged
and no `loadSingleClusterCmd` is dispatched (only the spinner tick of the
loading branch); and pressing `/` while already in search mode leaves the
search state (the `searching` flag and the current query) unchanged. -/
theorem inflight_and_search_guards (m : AppModel)
    (h : m.screen = ScreenType.clusterListScreen) :
    (m.clusterList.loading = true →
      update m (.key "ctrl+u") = some (m, Cmd.spinnerTick) ∧
      stepOk (update m (.key "ctrl+u"))
        (fun _ cmds => containsSingleRefresh cmds = false)) ∧
    (m.clusterList.searching = true →
      stepOk (update m (.key "/")) (fun mr _ =>
        mr.clusterList.searching = true ∧
        mr.clusterList.searchInput.value = m.clusterList.searchInput.value)) := by
  constructor
  · intro hl
    have he : update m (.key "ctrl+u") = some (m, Cmd.spinnerTick) := by
      simp [update, updateScreens, h, hl]
    exact ⟨he, by rw [he]; exact rfl⟩
  · intro hs
    cases hl : m.clusterList.loading with
    | true => simp [stepOk, update, updateScreens, h, hl, hs]
    | false => simp [stepOk, update, updateScreens, h, hl, hs]

theorem inflight_and_search_guards_witness :
    (update witLoadingModel (.key "ctrl+u") = some (witLoadingModel, Cmd.spinnerTick) ∧
      stepOk (update witLoadingModel (.key "ctrl+u"))
        (fun _ cmds => containsSingleRefresh cmds = false)) ∧
    stepOk (update witSearchModel (.key "/")) (fun mr _ =>
      mr.clusterList.searching = true ∧
      mr.clusterList.searchInput.value
        = witSearchModel.clusterList.searchInput.value) :=
  ⟨(inflight_and_search_guards witLoadingModel rfl).1 rfl,
   (inflight_and_search_guards witSearchModel rfl).2 rfl⟩

/-! ## C9: the selection invariant and the bounds guards -/

/-- C9 fails as stated: the reachable-state invariant clause is false.
From a two-cluster list, `down` (cursor 1), then `/` (search mode), then
typing `b` filters the visible rows down to the single `qemtv-b` row
while the cursor stays at 1 — out of bounds of the visible set, which is
not empty.  And on an empty visible set the cursor is not "undefined":
a movement key clamps it to `-1`, on which the `>= len` bounds guards
fail and the subsequent cluster-slice access panics (`update` is
`none`), so the reading operation is not a no-op either. -/
theorem selection_invariant_cex :
    ((update cexC9Model (Msg.key "down")).isSome = true ∧
      (update cexC9s1 (Msg.key "/")).isSome = true ∧
      (update cexC9s2 (Msg.key "b")).isSome = true) ∧
    cexC9s3.clusterList.searching = true ∧
    cexC9s3.clusterList.table.rows.length = 1 ∧
    cexC9s3.clusterList.table.cursor = 1 ∧
    cexC9Empty.clusterList.table.rows.length = 0 ∧
    update cexC9Empty (Msg.key "down") = none := by
  decide

/-- C9 (amended): the bounds guards of the reading operations hold only
for non-negative cursors.  For a cursor at or past the end of the
currently visible record set (the table rows while searching, the
cluster slice otherwise), `updateSelectedClusterDetails` emits nothing,
`refreshSingleCluster` only raises a notification, and
`handleRightPaneCopy` reports "No field selected"; for an in-bounds
cursor the selection event carries exactly the indexed record.  A
negative cursor — reachable via the bubbles clamp on an empty row set —
slips past every `>= len` guard and the read panics (`none`). -/
theorem selection_reads_bounds_guarded (m : AppModel) :
    (m.clusterList.searching = false →
      m.clusterList.table.cursor ≥ (m.clusterList.clusters.length : Int) →
      updateSelectedClusterDetails m = some Cmd.none) ∧
    (m.clusterList.searching = true →
      m.clusterList.table.cursor ≥ (m.clusterList.table.rows.length : Int) →
      updateSelectedClusterDetails m = some Cmd.none) ∧
    (m.clusterList.searching = false →
      m.clusterList.table.cursor < (m.clusterList.clusters.length : Int) →
      0 ≤ m.clusterList.table.cursor →
      updateSelectedClusterDetails m
        = some (Cmd.selectionMsgCmd
            ((m.clusterList.clusters.getD m.clusterList.table.cursor.toNat
              (offlineItem "")).name)
            (m.clusterList.clusters.getD m.clusterList.table.cursor.toNat
              (offlineItem "")))) ∧
    (m.clusterList.searching = false →
      m.clusterList.table.cursor < 0 →
      updateSelectedClusterDetails m = none) ∧
    (m.clusterList.searching = true →
      m.clusterList.table.cursor < 0 →
      updateSelectedClusterDetails m = none) ∧
    (m.clusterList.table.cursor ≥ (m.clusterList.clusters.length : Int) →
      refreshSingleCluster m = some (m, Cmd.notify "No cluster selected" true)) ∧
    (m.clusterList.table.cursor < 0 →
      refreshSingleCluster m = none) ∧
    (m.clusterList.detailView.info ≠ none →
      m.clusterList.detailView.table.cursor
          ≥ (m.clusterList.detailView.table.rows.length : Int) →
      handleRightPaneCopy m = some ({ m with error := "No field selected" }, Cmd.none)) ∧
    (m.clusterList.detailView.info ≠ none →
      m.clusterList.detailView.table.cursor < 0 →
      handleRightPaneCopy m = none) := by
  refine ⟨?_, ?_, ?_, ?_, ?_, ?_, ?_, ?_, ?_⟩
  · intro hs hcur
    simp [updateSelectedClusterDetails, hs, hcur]
  · intro hs hcur
    simp [updateSelectedClusterDetails, hs, hcur]
  · intro hs hcur hnn
    have hlt : m.clusterList.table.cursor.toNat < m.clusterList.clusters.length := by
      omega
    simp [updateSelectedClusterDetails, hs, not_le.mpr hcur, goIndex, not_lt.mpr hnn,
      List.getElem?_eq_getElem hlt, List.getD_eq_getElem _ _ hlt]
  · intro hs hneg
    have hnl : ¬ m.clusterList.table.cursor ≥ (m.clusterList.clusters.length : Int) := by
      omega
    simp [updateSelectedClusterDetails, hs, hnl, goIndex, hneg]
  · intro hs hneg
    have hnl : ¬ m.clusterList.table.cursor ≥ (m.clusterList.table.rows.length : Int) := by
      omega
    simp [updateSelectedClusterDetails, hs, hnl, goIndex, hneg]
  · intro hcur
    simp [refreshSingleCluster, hcur]
  · intro hneg
    have hnl : ¬ m.clusterList.table.cursor ≥ (m.clusterList.clusters.length : Int) := by
      omega
    simp [refreshSingleCluster, hnl, goIndex, hneg]
  · intro hinfo hcur
    simp [handleRightPaneCopy, hinfo, hcur]
  · intro hinfo hneg
    have hnl : ¬ m.clusterList.detailView.table.cursor
        ≥ (m.clusterList.detailView.table.rows.length : Int) := by
      omega
    simp [handleRightPaneCopy, hinfo, hnl, goIndex, hneg]

theorem selection_reads_bounds_guarded_witness :
    (updateSelectedClusterDetails witOOBModel = some Cmd.none ∧
      refreshSingleCluster witOOBModel
        = some (witOOBModel, Cmd.notify "No cluster selected" true) ∧
      handleRightPaneCopy witOOBModel
        = some ({ witOOBModel with error := "No field selected" }, Cmd.none)) ∧
    updateSelectedClusterDetails witModel
      = some (Cmd.selectionMsgCmd witCluster.name witCluster) ∧
    (updateSelectedClusterDetails witNegModel = none ∧
      refreshSingleCluster witNegModel = none) :=
  ⟨⟨(selection_reads_bounds_guarded witOOBModel).1 (by decide) (by decide),
    (selection_reads_bounds_guarded witOOBModel).2.2.2.2.2.1 (by decide),
    (selection_reads_bounds_guarded witOOBModel).2.2.2.2.2.2.2.1 (by decide) (by decide)⟩,
   (selection_reads_bounds_guarded witModel).2.2.1 (by decide) (by decide) (by decide),
   (selection_reads_bounds_guarded witNegModel).2.2.2.1 (by decide) (by decide),
   (selection_reads_bounds_guarded witNegModel).2.2.2.2.2.2.1 (by decide)⟩

/-! ## C10: registry failure degrades to an empty, error-free result -/

/-- C10: if reading the registry directory fails, or no entry is a
directory with prefix `qemtv-`/`qemtvd-`, discovery returns the ordinary
`ClustersLoadedMsg` carrying an empty record list and an empty metadata
cache (no error value exists on this path), and consuming that message
simply leaves the loading state with an empty cluster list, no change to
the error field, and no further command — the session continues. -/
theorem registry_failure_graceful (entries : List DirEntry)
    (outcome : String → ProbeOutcome) (arrivals : List String) (m : AppModel) :
    loadClustersCmdRun none outcome arrivals = ⟨[], []⟩ ∧
    (candidateNames entries = [] →
      loadClustersCmdRun (some entries) outcome arrivals = ⟨[], []⟩) ∧
    stepOk (update m (.clustersLoaded [] [])) (fun mr cmdr =>
      mr.clusterList.loading = false ∧
      mr.clusterList.clusters = [] ∧
      mr.error = m.error ∧
      cmdr = Cmd.none) := by
  refine ⟨rfl, ?_, ?_⟩
  · intro hno
    simp [loadClustersCmdRun, hno]
  · simp [stepOk, update]

theorem registry_failure_graceful_witness :
    candidateNames cex10Entries = [] ∧
    (loadClustersCmdRun none wit1Outcome [] = ⟨[], []⟩ ∧
      loadClustersCmdRun (some cex10Entries) wit1Outcome [] = ⟨[], []⟩ ∧
      stepOk (update witModel (.clustersLoaded [] [])) (fun mr cmdr =>
        mr.clusterList.loading = false ∧
        mr.clusterList.clusters = [] ∧
        mr.error = witModel.error ∧
        cmdr = Cmd.none)) :=
  ⟨by decide,
    (registry_failure_graceful cex10Entries wit1Outcome [] witModel).1,
    (registry_failure_graceful cex10Entries wit1Outcome [] witModel).2.1 (by decide),
    (registry_failure_graceful cex10Entries wit1Outcome [] witModel).2.2⟩
